import Mathlib

/-!
Shallow embedding of the nexus-analyzer backend services
(`services/csv_processor.py`, `services/nexus_engine.py`,
`services/liability_engine.py`, `services/business_profile_service.py`)
together with theorems checking the natural-language specification
against this code.

Conventions of the embedding:
* Python `Decimal` / `float` arithmetic is modelled exactly with `Rat`
  (the code only adds, multiplies and divides decimal quantities).
* Python `datetime.date` is modelled by `PyDate` (proleptic Gregorian,
  year >= 1 as in CPython), with lexicographic comparison.
* A pandas cell is `Cell`: `na` (NaN / missing value), a string, or a
  number; an absent column is `Option.none` around the cell.
* Fallible Python code (comparisons with `None` raising `TypeError`,
  missing analysis rows raising `ValueError`) returns `Except PyError`.
* Free-text fields built only for display (recommendation strings,
  calculation-note strings, assumption notes) are not modelled; no claim
  mentions them.
-/

-- Batteries marks the `Rat` field operations `@[irreducible]`, which
-- blocks `decide` from evaluating concrete runs of the embedded code;
-- restore default reducibility (this has no effect on kernel soundness).
set_option allowUnsafeReducibility true in
attribute [semireducible] Rat.mul Rat.add Rat.sub Rat.inv Rat.ofScientific

/-- Errors raised by the modelled Python code. -/
inductive PyError where
  | typeError : PyError
  | valueError : PyError
deriving DecidableEq, Repr

/-- Python `datetime.date`: proleptic Gregorian calendar date. -/
structure PyDate where
  year : Nat
  month : Nat
  day : Nat
deriving DecidableEq, Repr

/-- Gregorian leap-year test. -/
def is_leap_year (y : Nat) : Bool :=
  (y % 4 == 0 && y % 100 != 0) || (y % 400 == 0)

/-- Days in a Gregorian month. -/
def days_in_month (y m : Nat) : Nat :=
  if m == 2 then (if is_leap_year y then 29 else 28)
  else if m == 4 || m == 6 || m == 9 || m == 11 then 30
  else 31

/-- Days in the months strictly before month `m` of year `y`. -/
def days_before_month (y m : Nat) : Nat :=
  (List.range (m - 1)).foldl (fun acc i => acc + days_in_month y (i + 1)) 0

/-- `date.toordinal()`: day number with 0001-01-01 as day 1. -/
def PyDate.toordinal (d : PyDate) : Nat :=
  365 * (d.year - 1) + (d.year - 1) / 4 - (d.year - 1) / 100 + (d.year - 1) / 400
    + days_before_month d.year d.month + d.day

/-- Date comparison `d1 <= d2` (lexicographic, as CPython compares dates). -/
def date_le (d1 d2 : PyDate) : Bool :=
  if d1.year != d2.year then d1.year < d2.year
  else if d1.month != d2.month then d1.month < d2.month
  else d1.day ≤ d2.day

/-- Date comparison `d1 < d2`. -/
def date_lt (d1 d2 : PyDate) : Bool :=
  date_le d1 d2 && d1 != d2

/-- `timedelta` difference in days between two dates (`(d2 - d1).days`). -/
def date_diff_days (d2 d1 : PyDate) : Int :=
  (d2.toordinal : Int) - (d1.toordinal : Int)

/-- `d + timedelta(days = n)`. -/
def date_add_days (d : PyDate) (n : Nat) : PyDate :=
  Nat.rec d
    (fun _ prev =>
      if prev.day < days_in_month prev.year prev.month then
        { prev with day := prev.day + 1 }
      else if prev.month < 12 then
        { year := prev.year, month := prev.month + 1, day := 1 }
      else
        { year := prev.year + 1, month := 1, day := 1 })
    n

/-- `d - relativedelta(months = n)`: shift months back, clamping the day
to the length of the target month (dateutil semantics). -/
def date_sub_months (d : PyDate) (n : Nat) : PyDate :=
  let total := d.year * 12 + (d.month - 1) - n
  let y := total / 12
  let m := total % 12 + 1
  { year := y, month := m, day := min d.day (days_in_month y m) }

/-- A pandas cell value: NaN/missing, a string, or a numeric value. -/
inductive Cell where
  | na : Cell
  | str : String → Cell
  | num : Rat → Cell
deriving DecidableEq, Repr

/-- `pd.isna` on an optional cell (`None`, i.e. an absent column, is NA). -/
def pd_isna : Option Cell → Bool
  | none => true
  | some Cell.na => true
  | some _ => false

/-- Python truthiness of a cell (`bool(value)`).  Note that a missing
pandas cell is the float NaN, which is truthy in Python. -/
def py_truthy : Cell → Bool
  | Cell.na => true
  | Cell.str s => s ≠ ""
  | Cell.num q => q ≠ 0

/-- `str(value)` for the cell payloads that reach string fields. -/
def py_str_of_cell : Cell → String
  | Cell.na => "nan"
  | Cell.str s => s
  | Cell.num q => toString q

/-- ASCII `str.upper()` on one character (state codes and names are ASCII). -/
def py_char_upper (c : Char) : Char :=
  if 97 ≤ c.toNat && c.toNat ≤ 122 then Char.ofNat (c.toNat - 32) else c

/-- ASCII `str.upper()`. -/
def py_upper (s : String) : String :=
  ⟨s.toList.map py_char_upper⟩

/-- `str.strip()`: remove leading and trailing whitespace. -/
def py_strip (s : String) : String :=
  ⟨((s.toList.dropWhile Char.isWhitespace).reverse.dropWhile Char.isWhitespace).reverse⟩

/-- Digit run to a natural number. -/
def digits_to_nat (ds : List Char) : Nat :=
  ds.foldl (fun a c => a * 10 + (c.toNat - 48)) 0

/-- Parse an optional leading sign, returning (negative?, rest). -/
def take_sign : List Char → Bool × List Char
  | '-' :: cs => (true, cs)
  | '+' :: cs => (false, cs)
  | cs => (false, cs)

/-- Split a character list at the first occurrence of a separator
satisfying `p`; returns `(before, after)` with the separator dropped,
or `none` if no separator occurs. -/
def split_first (p : Char → Bool) : List Char → Option (List Char × List Char)
  | [] => none
  | c :: cs =>
    if p c then some ([], cs)
    else match split_first p cs with
      | some (l, r) => some (c :: l, r)
      | none => none

/-- `Decimal(s)` for finite numeric strings: optional sign, digits with an
optional fractional part, optional exponent.  Returns `none` where the
Python constructor raises `InvalidOperation`.  (The special values
`NaN`/`Infinity` accepted by `Decimal` are outside this model.) -/
def parse_decimal (s : String) : Option Rat :=
  let cs := s.toList
  let (neg, cs) := take_sign cs
  let (mant, expo) :=
    match split_first (fun c => c == 'e' || c == 'E') cs with
    | some (m, e) => (m, some e)
    | none => (cs, none)
  let expVal : Option Int :=
    match expo with
    | none => some 0
    | some e =>
      let (eneg, ds) := take_sign e
      if ds ≠ [] && ds.all Char.isDigit then
        some (if eneg then -(digits_to_nat ds : Int) else (digits_to_nat ds : Int))
      else none
  match expVal with
  | none => none
  | some ex =>
    let (ip, fp) :=
      match split_first (fun c => c == '.') mant with
      | some (l, r) => (l, r)
      | none => (mant, [])
    if fp.any (fun c => c == '.') then none
    else if ip ++ fp = [] then none
    else if (ip ++ fp).all Char.isDigit then
      let n : Rat := (digits_to_nat (ip ++ fp) : Nat)
      let shift : Int := ex - fp.length
      let mag : Rat :=
        if 0 ≤ shift then n * (10 : Rat) ^ shift.toNat
        else n / (10 : Rat) ^ (-shift).toNat
      some (if neg then -mag else mag)
    else none

/-- `STATE_CODES` from `csv_processor.py`: code ↦ full name. -/
def STATE_CODES : List (String × String) :=
  [("AL", "Alabama"), ("AK", "Alaska"), ("AZ", "Arizona"), ("AR", "Arkansas"),
   ("CA", "California"), ("CO", "Colorado"), ("CT", "Connecticut"), ("DE", "Delaware"),
   ("FL", "Florida"), ("GA", "Georgia"), ("HI", "Hawaii"), ("ID", "Idaho"),
   ("IL", "Illinois"), ("IN", "Indiana"), ("IA", "Iowa"), ("KS", "Kansas"),
   ("KY", "Kentucky"), ("LA", "Louisiana"), ("ME", "Maine"), ("MD", "Maryland"),
   ("MA", "Massachusetts"), ("MI", "Michigan"), ("MN", "Minnesota"), ("MS", "Mississippi"),
   ("MO", "Missouri"), ("MT", "Montana"), ("NE", "Nebraska"), ("NV", "Nevada"),
   ("NH", "New Hampshire"), ("NJ", "New Jersey"), ("NM", "New Mexico"), ("NY", "New York"),
   ("NC", "North Carolina"), ("ND", "North Dakota"), ("OH", "Ohio"), ("OK", "Oklahoma"),
   ("OR", "Oregon"), ("PA", "Pennsylvania"), ("RI", "Rhode Island"), ("SC", "South Carolina"),
   ("SD", "South Dakota"), ("TN", "Tennessee"), ("TX", "Texas"), ("UT", "Utah"),
   ("VT", "Vermont"), ("VA", "Virginia"), ("WA", "Washington"), ("WV", "West Virginia"),
   ("WI", "Wisconsin"), ("WY", "Wyoming"), ("DC", "District of Columbia")]

/-- `STATE_NAMES_TO_CODES`: upper-cased full name ↦ code. -/
def STATE_NAMES_TO_CODES : List (String × String) :=
  STATE_CODES.map (fun p => (py_upper p.2, p.1))

/-- Association-list lookup (`dict` access). -/
def alist_get (l : List (String × String)) (k : String) : Option String :=
  (l.find? (fun p => p.1 == k)).map (fun p => p.2)

/-- One `strptime` pattern: the separator character and the field order. -/
inductive DateOrder where
  | ymd : DateOrder
  | mdy : DateOrder
  | dmy : DateOrder
deriving DecidableEq, Repr

/-- Does a component list match `%Y` / `%m` / `%d` widths and ranges, and
  is the resulting date a real calendar date?  Mirrors what
  `datetime.strptime` accepts for the purely numeric formats used. -/
def make_date (y m d : List Char) : Option PyDate :=
  if y ≠ [] && y.length ≤ 4 && y.all Char.isDigit &&
     m ≠ [] && m.length ≤ 2 && m.all Char.isDigit &&
     d ≠ [] && d.length ≤ 2 && d.all Char.isDigit then
    let yv := digits_to_nat y
    let mv := digits_to_nat m
    let dv := digits_to_nat d
    if 1 ≤ yv && 1 ≤ mv && mv ≤ 12 && 1 ≤ dv && dv ≤ days_in_month yv mv then
      some { year := yv, month := mv, day := dv }
    else none
  else none

/-- Try one of the six `strptime` formats from `validate_and_convert_date`. -/
def try_date_format (sep : Char) (ord : DateOrder) (s : String) : Option PyDate :=
  match (s.toList.splitOn sep) with
  | [a, b, c] =>
    match ord with
    | DateOrder.ymd => make_date a b c
    | DateOrder.mdy => make_date c a b
    | DateOrder.dmy => make_date c b a
  | _ => none

/-- The format list of `validate_and_convert_date`, in source order:
`%Y-%m-%d`, `%m/%d/%Y`, `%d/%m/%Y`, `%Y/%m/%d`, `%m-%d-%Y`, `%d-%m-%Y`. -/
def date_formats : List (Char × DateOrder) :=
  [('-', DateOrder.ymd), ('/', DateOrder.mdy), ('/', DateOrder.dmy),
   ('/', DateOrder.ymd), ('-', DateOrder.mdy), ('-', DateOrder.dmy)]

/-- `CSVProcessor.validate_and_convert_date`: NA → `none`; a string is
tried against the format list (stripped first); a numeric cell matches no
`isinstance` branch and yields `none`. -/
def validate_and_convert_date (v : Option Cell) : Option PyDate :=
  match v with
  | none => none
  | some Cell.na => none
  | some (Cell.num _) => none
  | some (Cell.str s) =>
    date_formats.foldl
      (fun acc fmt =>
        match acc with
        | some d => some d
        | none => try_date_format fmt.1 fmt.2 (py_strip s))
      none

/-- `CSVProcessor.validate_and_convert_state`: NA → `none`; otherwise the
stripped upper-cased string is looked up as a code, then as a full state
name.  A numeric cell stringifies to digits and matches neither table. -/
def validate_and_convert_state (v : Option Cell) : Option String :=
  match v with
  | none => none
  | some Cell.na => none
  | some (Cell.num _) => none
  | some (Cell.str s) =>
    let st := py_upper (py_strip s)
    if (alist_get STATE_CODES st).isSome then some st
    else alist_get STATE_NAMES_TO_CODES st

/-- `CSVProcessor.validate_and_convert_amount`: NA → `Decimal('0.00')`;
strings are stripped and have every `$` and `,` removed before `Decimal`
parsing; other values go through `Decimal(str(value))`.  `none` models
the `InvalidOperation`/`ValueError` branch returning `None`. -/
def validate_and_convert_amount (v : Option Cell) : Option Rat :=
  if pd_isna v then some 0
  else match v with
    | some (Cell.str s) =>
      parse_decimal ⟨(py_strip s).toList.filter (fun c => c ≠ '$' && c ≠ ',')⟩
    | some (Cell.num q) => some q
    | _ => some 0

/-- A DataFrame row after `parse_csv` column renaming: each standard
column is either absent (`none`) or holds a cell. -/
structure Row where
  transaction_date : Option Cell := none
  customer_state : Option Cell := none
  gross_amount : Option Cell := none
  tax_collected : Option Cell := none
  shipping_amount : Option Cell := none
  order_id : Option Cell := none
  customer_id : Option Cell := none
  marketplace_name : Option Cell := none
  is_exempt : Option Cell := none
deriving DecidableEq, Repr

/-- A `Transaction` model row as constructed by the CSV processor. -/
structure Transaction where
  analysis_id : String
  transaction_date : PyDate
  customer_state : String
  gross_amount : Rat
  tax_collected : Option Rat := some 0
  shipping_amount : Option Rat := some 0
  order_id : Option String := none
  customer_id : Option String := none
  marketplace_name : Option String := none
  is_marketplace_sale : Bool := false
  is_exempt_sale : Bool := false
  original_row_number : Option String := none
deriving DecidableEq, Repr

/-- The `validated_data` dict built by `validate_row` on success. -/
structure ValidatedData where
  transaction_date : PyDate
  customer_state : String
  gross_amount : Rat
  tax_collected : Option Rat
  shipping_amount : Option Rat
  order_id : Option String
  customer_id : Option String
  marketplace_name : Option String
  is_marketplace_sale : Bool
  is_exempt_sale : Bool
  original_row_number : String
deriving DecidableEq, Repr

/-- The error dict built by `validate_row` on failure. -/
structure RowError where
  row_number : Nat
  errors : List String
  data : Row
deriving DecidableEq, Repr

/-- Result of `validate_row`: the `(is_valid, payload)` pair. -/
inductive RowResult where
  | valid : ValidatedData → RowResult
  | invalid : RowError → RowResult
deriving DecidableEq, Repr

/-- `str(row.get(col, '')).strip() if pd.notna(row.get(col)) else None`. -/
def optional_str_field (v : Option Cell) : Option String :=
  if pd_isna v then none
  else match v with
    | some c => some (py_strip (py_str_of_cell c))
    | none => none

/-- `CSVProcessor.validate_row`.  The error list is accumulated in the
source's order: the three required-field checks, then the date, state and
amount conversion checks (a column that is present but NA collects both
its "Missing" and its "Invalid" message, except for amounts, where NA
converts to `0.00`). -/
def validate_row (row : Row) (row_number : Nat) : RowResult :=
  let e1 := if !row.transaction_date.isSome || pd_isna row.transaction_date then
      ["Missing transaction date"] else []
  let e2 := if !row.customer_state.isSome || pd_isna row.customer_state then
      ["Missing customer state"] else []
  let e3 := if !row.gross_amount.isSome || pd_isna row.gross_amount then
      ["Missing gross amount"] else []
  let transaction_date := validate_and_convert_date row.transaction_date
  let e4 := if transaction_date.isNone && row.transaction_date.isSome then
      ["Invalid date format"] else []
  let customer_state := validate_and_convert_state row.customer_state
  let e5 := if customer_state.isNone && row.customer_state.isSome then
      ["Invalid state code"] else []
  let gross_amount := validate_and_convert_amount row.gross_amount
  let e6 := if gross_amount.isNone then ["Invalid amount"] else []
  let errors := e1 ++ e2 ++ e3 ++ e4 ++ e5 ++ e6
  if errors ≠ [] then
    RowResult.invalid { row_number := row_number, errors := errors, data := row }
  else
    -- the defaults below are unreachable: an empty error list forces all
    -- three conversions to have succeeded
    RowResult.valid {
      transaction_date := transaction_date.getD { year := 1, month := 1, day := 1 },
      customer_state := customer_state.getD "",
      gross_amount := gross_amount.getD 0,
      tax_collected := validate_and_convert_amount (some (row.tax_collected.getD (Cell.num 0))),
      shipping_amount := validate_and_convert_amount (some (row.shipping_amount.getD (Cell.num 0))),
      order_id := optional_str_field row.order_id,
      customer_id := optional_str_field row.customer_id,
      marketplace_name := optional_str_field row.marketplace_name,
      is_marketplace_sale :=
        if row.marketplace_name.isSome then
          py_truthy (row.marketplace_name.getD Cell.na)
        else false,
      is_exempt_sale := py_truthy (row.is_exempt.getD (Cell.num 0)),
      original_row_number := toString row_number }

/-- Build the `Transaction` from a validated row (`Transaction(analysis_id=..., **result)`). -/
def transaction_of_validated (analysis_id : String) (v : ValidatedData) : Transaction :=
  { analysis_id := analysis_id,
    transaction_date := v.transaction_date,
    customer_state := v.customer_state,
    gross_amount := v.gross_amount,
    tax_collected := v.tax_collected,
    shipping_amount := v.shipping_amount,
    order_id := v.order_id,
    customer_id := v.customer_id,
    marketplace_name := v.marketplace_name,
    is_marketplace_sale := v.is_marketplace_sale,
    is_exempt_sale := v.is_exempt_sale,
    original_row_number := some v.original_row_number }

/-- The dict returned by `process_dataframe`, plus the list of transaction
rows committed to the database (`persisted`; the source's
`bulk_save_objects` + `commit`). -/
structure ProcessResult where
  success : Bool
  error : Option String := none
  valid_rows : Nat
  invalid_rows : Nat
  total_rows : Nat
  quality_percentage : Rat
  validation_errors : List RowError
  persisted : List Transaction
deriving DecidableEq, Repr

/-- `CSVProcessor.process_dataframe`: validate every row (row numbers are
`index + 2` for the header row and 1-based indexing), compute the quality
percentage with the `total_rows > 0` guard, reject the batch below 80%
(persisting nothing), otherwise persist all valid rows; either way the
reported error list is truncated to 100 entries. -/
def process_dataframe (df : List Row) (analysis_id : String) : ProcessResult :=
  let step := df.foldl
    (fun (acc : Nat × List Transaction × List RowError) row =>
      let (idx, txns, errs) := acc
      match validate_row row (idx + 2) with
      | RowResult.valid v => (idx + 1, txns ++ [transaction_of_validated analysis_id v], errs)
      | RowResult.invalid e => (idx + 1, txns, errs ++ [e]))
    (0, [], [])
  let valid_transactions := step.2.1
  let validation_errors := step.2.2
  let valid_row_count := valid_transactions.length
  let invalid_row_count := validation_errors.length
  let total_rows := df.length
  let quality_percentage : Rat :=
    if total_rows > 0 then (valid_row_count : Rat) / (total_rows : Rat) * 100 else 0
  if quality_percentage < 80 then
    { success := false,
      error := some "Data quality too low",
      valid_rows := valid_row_count,
      invalid_rows := invalid_row_count,
      total_rows := total_rows,
      quality_percentage := quality_percentage,
      validation_errors := validation_errors.take 100,
      persisted := [] }
  else
    { success := true,
      valid_rows := valid_row_count,
      invalid_rows := invalid_row_count,
      total_rows := total_rows,
      quality_percentage := quality_percentage,
      validation_errors := validation_errors.take 100,
      persisted := valid_transactions }

/-- `ThresholdType` as used by `nexus_engine.py`
(`SALES_ONLY`, `TRANSACTIONS_ONLY`, `EITHER`, `BOTH`). -/
inductive ThresholdType where
  | sales_only : ThresholdType
  | transactions_only : ThresholdType
  | either_one : ThresholdType
  | both : ThresholdType
deriving DecidableEq, Repr

/-- `MeasurementPeriod` from `models/nexus_rule.py`. -/
inductive MeasurementPeriod where
  | calendar_year : MeasurementPeriod
  | rolling_12_months : MeasurementPeriod
  | previous_calendar_year : MeasurementPeriod
deriving DecidableEq, Repr

/-- `NexusStatus` from `models/nexus_result.py`. -/
inductive NexusStatus where
  | nexus_physical : NexusStatus
  | nexus_economic : NexusStatus
  | close_to_threshold : NexusStatus
  | no_nexus : NexusStatus
deriving DecidableEq, Repr

/-- `ConfidenceLevel` from `models/nexus_result.py`. -/
inductive ConfidenceLevel where
  | high : ConfidenceLevel
  | medium : ConfidenceLevel
  | low : ConfidenceLevel
deriving DecidableEq, Repr

/-- A nexus rule row, with the nullable attributes the engine reads.
(The engine accesses `threshold_type`, `exclude_marketplace_sales` and
`registration_threshold_days`; the threshold columns are nullable in
`models/nexus_rule.py`.) -/
structure NexusRule where
  state_code : String
  nexus_type : String := "economic"
  sales_threshold : Option Rat := none
  transaction_threshold : Option Nat := none
  threshold_type : Option ThresholdType := none
  measurement_period : Option MeasurementPeriod := none
  exclude_marketplace_sales : Bool := true
  registration_threshold_days : Option Nat := none
deriving DecidableEq, Repr

/-- A physical location row (the fields `get_physical_nexus_states` and
`_determine_physical_nexus_date` read). -/
structure PhysicalLocation where
  state : String
  established_date : Option PyDate := none
  closed_date : Option PyDate := none
deriving DecidableEq, Repr

/-- A business profile row with its locations. -/
structure BusinessProfile where
  analysis_id : String
  has_physical_presence : Bool := true
  physical_locations : List PhysicalLocation := []
deriving DecidableEq, Repr

/-- An `Analysis` row (the fields the engines read). -/
structure Analysis where
  analysis_id : String
  period_start : PyDate
  period_end : PyDate
deriving DecidableEq, Repr

/-- Insert into a sorted list, after any equal element (stable). -/
def insert_by (le : α → α → Bool) (x : α) : List α → List α
  | [] => [x]
  | y :: ys => if le x y then x :: y :: ys else y :: insert_by le x ys

/-- Stable insertion sort (Python `sorted`). -/
def sort_by (le : α → α → Bool) (l : List α) : List α :=
  l.foldr (insert_by le) []

/-- `BusinessProfileService.get_physical_nexus_states`: the upper-cased
states of locations active on `as_of_date` (a location with a future
`established_date` or a `closed_date` on or before `as_of_date` is
skipped; null dates pass both checks), deduplicated and sorted. -/
def get_physical_nexus_states (bp : BusinessProfile) (as_of_date : PyDate) : List String :=
  if !bp.has_physical_presence then []
  else
    let states := bp.physical_locations.filterMap (fun loc =>
      if loc.established_date.elim false (fun d => date_lt as_of_date d) then none
      else if loc.closed_date.elim false (fun d => date_le d as_of_date) then none
      else some (py_upper loc.state))
    sort_by (fun a b => a ≤ b) states.dedup

/-- `NexusEngine._calculate_measurement_period`. -/
def calculate_measurement_period (mp : Option MeasurementPeriod) (reference_date : PyDate) :
    PyDate × PyDate :=
  match mp with
  | some MeasurementPeriod.calendar_year =>
    ({ year := reference_date.year, month := 1, day := 1 }, reference_date)
  | some MeasurementPeriod.previous_calendar_year =>
    ({ year := reference_date.year - 1, month := 1, day := 1 },
     { year := reference_date.year - 1, month := 12, day := 31 })
  | some MeasurementPeriod.rolling_12_months =>
    (date_add_days (date_sub_months reference_date 12) 1, reference_date)
  | none =>
    -- default branch: rolling 12 months
    (date_add_days (date_sub_months reference_date 12) 1, reference_date)

/-- `x >= threshold` where the right side may be `None`
(`Decimal >= None` / `int >= None` raises `TypeError`). -/
def py_ge_opt (x : Rat) (o : Option Rat) : Except PyError Bool :=
  match o with
  | none => Except.error PyError.typeError
  | some y => Except.ok (decide (x ≥ y))

/-- `count >= threshold` for the integer transaction threshold. -/
def py_ge_nat_opt (x : Nat) (o : Option Nat) : Except PyError Bool :=
  match o with
  | none => Except.error PyError.typeError
  | some y => Except.ok (decide (x ≥ y))

/-- The transactions `_check_economic_nexus` loads: the analysis's
transactions for the state whose date lies in the measurement period. -/
def window_transactions (txns : List Transaction) (analysis_id state : String)
    (period_start period_end : PyDate) : List Transaction :=
  txns.filter (fun t =>
    t.analysis_id == analysis_id && t.customer_state == state &&
    date_le period_start t.transaction_date && date_le t.transaction_date period_end)

/-- The accumulation loop of `_check_economic_nexus`:
`(total_sales, taxable_sales, transaction_count, marketplace_sales)`.
Marketplace sales are removed from the taxable figure only when the rule
excludes them; exempt sales never enter it; every transaction counts. -/
def economic_totals (window : List Transaction) (exclude_marketplace : Bool) :
    Rat × Rat × Nat × Rat :=
  window.foldl
    (fun (acc : Rat × Rat × Nat × Rat) txn =>
      let (total, taxable, count, mkt) := acc
      let total := total + txn.gross_amount
      let count := count + 1
      if txn.is_marketplace_sale && exclude_marketplace then
        (total, taxable, count, mkt + txn.gross_amount)
      else if !txn.is_exempt_sale then
        (total, taxable + txn.gross_amount, count, mkt)
      else
        (total, taxable, count, mkt))
    (0, 0, 0, 0)

/-- `NexusEngine._determine_economic_nexus_date`: walk the state's
transactions in date order keeping running totals, and return the date of
the transaction on which the rule's threshold test first passes. -/
def determine_economic_nexus_date (txns : List Transaction) (analysis_id state : String)
    (rule : NexusRule) : Except PyError (Option PyDate) :=
  let state_txns := txns.filter (fun t =>
    t.analysis_id == analysis_id && t.customer_state == state)
  let ordered := sort_by (fun a b => date_le a.transaction_date b.transaction_date) state_txns
  let rec go (running_sales : Rat) (running_transactions : Nat) :
      List Transaction → Except PyError (Option PyDate)
    | [] => Except.ok none
    | txn :: rest => do
      let running_sales :=
        if !txn.is_exempt_sale && !(txn.is_marketplace_sale && rule.exclude_marketplace_sales)
        then running_sales + txn.gross_amount else running_sales
      let running_transactions := running_transactions + 1
      let threshold_crossed ←
        match rule.threshold_type with
        | some ThresholdType.sales_only => py_ge_opt running_sales rule.sales_threshold
        | some ThresholdType.transactions_only =>
          py_ge_nat_opt running_transactions rule.transaction_threshold
        | some ThresholdType.either_one => do
          let s ← py_ge_opt running_sales rule.sales_threshold
          let t ← py_ge_nat_opt running_transactions rule.transaction_threshold
          pure (s || t)
        | some ThresholdType.both => do
          let s ← py_ge_opt running_sales rule.sales_threshold
          let t ← py_ge_nat_opt running_transactions rule.transaction_threshold
          pure (s && t)
        | none => pure false
      if threshold_crossed then pure (some txn.transaction_date)
      else go running_sales running_transactions rest
  go 0 0 ordered

/-- `int(x)` on a nonnegative-or-negative rational: truncation toward zero. -/
def py_int_trunc (q : Rat) : Int :=
  if q < 0 then -((-q).floor) else q.floor

/-- `NexusEngine._estimate_days_until_threshold`: daily sales velocity
from the 30 most recent transactions, then a truncated estimate of the
days needed to cover the remaining amount, floored at 0. -/
def estimate_days_until_threshold (current_sales threshold : Rat)
    (transactions : List Transaction) : Option Int :=
  if transactions.length < 2 then none
  else
    let sorted_txns := sort_by (fun a b => date_le a.transaction_date b.transaction_date)
      transactions
    let recent_txns := if sorted_txns.length ≥ 30 then
        sorted_txns.drop (sorted_txns.length - 30) else sorted_txns
    if recent_txns.length < 2 then none
    else
      match recent_txns, recent_txns.getLast? with
      | first :: _, some last =>
        let date_range := date_diff_days last.transaction_date first.transaction_date
        if date_range = 0 then none
        else
          let total_recent_sales :=
            (recent_txns.filter (fun t => !t.is_exempt_sale)).foldl
              (fun acc t => acc + t.gross_amount) 0
          let daily_rate := total_recent_sales / (date_range : Rat)
          if daily_rate ≤ 0 then none
          else
            let remaining := threshold - current_sales
            let days_estimate := py_int_trunc (remaining / daily_rate)
            some (max 0 days_estimate)
      | _, _ => none

/-- `THRESHOLD_WARNING_PERCENTAGE = 0.80`. -/
def THRESHOLD_WARNING_PERCENTAGE : Rat := 80 / 100

/-- `NexusEngine._check_close_to_threshold`: warn when between 80% and
100% of a configured (truthy, hence nonzero) threshold.  Returns
`(is_close, percentage_of_threshold, estimated_days_until_threshold)`. -/
def check_close_to_threshold (taxable_sales : Rat) (transaction_count : Nat)
    (rule : NexusRule) (transactions : List Transaction) :
    Bool × Option Rat × Option Int :=
  let sales_part :=
    if (rule.threshold_type == some ThresholdType.sales_only ||
        rule.threshold_type == some ThresholdType.either_one ||
        rule.threshold_type == some ThresholdType.both) &&
       rule.sales_threshold.elim false (fun s => s ≠ 0) then
      match rule.sales_threshold with
      | some s =>
        let sales_percentage := taxable_sales / s
        let is_close := THRESHOLD_WARNING_PERCENTAGE ≤ sales_percentage ∧ sales_percentage < 1
        (decide is_close, some (sales_percentage * 100),
          if is_close then estimate_days_until_threshold taxable_sales s transactions
          else none)
      | none => (false, none, none)
    else (false, none, none)
  let (is_close, threshold_percentage, days_until) := sales_part
  if (rule.threshold_type == some ThresholdType.transactions_only ||
      rule.threshold_type == some ThresholdType.either_one ||
      rule.threshold_type == some ThresholdType.both) &&
     rule.transaction_threshold.elim false (fun t => t ≠ 0) then
    match rule.transaction_threshold with
    | some t =>
      let txn_percentage := (transaction_count : Rat) / (t : Rat)
      let threshold_percentage :=
        if threshold_percentage.isNone then some (txn_percentage * 100)
        else threshold_percentage
      let is_close := is_close ||
        (THRESHOLD_WARNING_PERCENTAGE ≤ txn_percentage && txn_percentage < 1)
      (is_close, threshold_percentage, days_until)
    | none => (is_close, threshold_percentage, days_until)
  else (is_close, threshold_percentage, days_until)

/-- The dict returned by `_check_economic_nexus`.  It carries exactly the
keys the source returns; in particular it has NO `sales_threshold` key
(`_calculate_confidence_level` later reads that key with a default of 0).
The free-text `notes` entry is not modelled. -/
structure EconResult where
  has_nexus : Bool
  nexus_date : Option PyDate
  total_sales : Rat
  taxable_sales : Rat
  transaction_count : Nat
  marketplace_sales : Rat
  close_to_threshold : Bool
  threshold_percentage : Option Rat
  days_until_threshold : Option Int
deriving DecidableEq, Repr

/-- The threshold test of `_check_economic_nexus` (source lines 235-270):
a comparison against a `None` threshold raises `TypeError`; a null
`threshold_type` falls through every branch leaving `has_nexus` false. -/
def threshold_met (rule : NexusRule) (taxable_sales : Rat) (transaction_count : Nat) :
    Except PyError Bool :=
  match rule.threshold_type with
  | some ThresholdType.sales_only => py_ge_opt taxable_sales rule.sales_threshold
  | some ThresholdType.transactions_only =>
    py_ge_nat_opt transaction_count rule.transaction_threshold
  | some ThresholdType.either_one => do
    let sales_met ← py_ge_opt taxable_sales rule.sales_threshold
    let transactions_met ← py_ge_nat_opt transaction_count rule.transaction_threshold
    pure (sales_met || transactions_met)
  | some ThresholdType.both => do
    let sales_met ← py_ge_opt taxable_sales rule.sales_threshold
    let transactions_met ← py_ge_nat_opt transaction_count rule.transaction_threshold
    pure (sales_met && transactions_met)
  | none => pure false

/-- `NexusEngine._check_economic_nexus`: aggregate the state's
transactions over the measurement period, apply the rule's threshold
test, determine the nexus date when the threshold is met, and run the
close-to-threshold check. -/
def check_economic_nexus (txns : List Transaction) (analysis_id state : String)
    (rule : NexusRule) (period_end_date : PyDate) : Except PyError EconResult := do
  let (period_start, period_end) :=
    calculate_measurement_period rule.measurement_period period_end_date
  let window := window_transactions txns analysis_id state period_start period_end
  let (total_sales, taxable_sales, transaction_count, marketplace_sales) :=
    economic_totals window rule.exclude_marketplace_sales
  let has_nexus ← threshold_met rule taxable_sales transaction_count
  let nexus_date ←
    if has_nexus then determine_economic_nexus_date txns analysis_id state rule
    else pure none
  let (close, threshold_percentage, days_until) :=
    check_close_to_threshold taxable_sales transaction_count rule window
  pure {
    has_nexus := has_nexus,
    nexus_date := nexus_date,
    total_sales := total_sales,
    taxable_sales := taxable_sales,
    transaction_count := transaction_count,
    marketplace_sales := marketplace_sales,
    close_to_threshold := close,
    threshold_percentage := threshold_percentage,
    days_until_threshold := days_until }

/-- The loop body of `_determine_physical_nexus_date`: keep the earliest
recorded `established_date` of the locations whose state matches
(case-insensitively). -/
def phys_date_step (state : String) (earliest : Option PyDate)
    (loc : PhysicalLocation) : Option PyDate :=
  if py_upper loc.state == py_upper state then
    match loc.established_date with
    | some d =>
      match earliest with
      | none => some d
      | some e => if date_lt d e then some d else some e
    | none => earliest
  else earliest

/-- `NexusEngine._determine_physical_nexus_date`: the earliest
`established_date` over ALL of the profile's locations whose state
matches (case-insensitively) — no activity or as-of filtering. -/
def determine_physical_nexus_date (business_profile : Option BusinessProfile)
    (state : String) : Option PyDate :=
  match business_profile with
  | none => none
  | some bp =>
    if bp.physical_locations = [] then none
    else
      bp.physical_locations.foldl (phys_date_step state) none

/-- `NexusEngine._calculate_confidence_level`.  For an economic-nexus
result the source reads `economic_result.get('sales_threshold', 0)`, but
`_check_economic_nexus` never puts a `sales_threshold` key into its
return dict, so the read is always the default 0, which is falsy: the
1.5x-over-threshold HIGH branch is unreachable. -/
def calculate_confidence_level (has_physical_nexus : Bool) (er : EconResult) :
    ConfidenceLevel :=
  if has_physical_nexus then ConfidenceLevel.high
  else if er.has_nexus then
    if er.taxable_sales > 0 then
      let sales_threshold : Rat := 0
      if sales_threshold ≠ 0 && er.taxable_sales ≥ sales_threshold * (3 / 2) then
        ConfidenceLevel.high
      else ConfidenceLevel.medium
    else ConfidenceLevel.medium
  else if er.close_to_threshold then ConfidenceLevel.medium
  else if er.transaction_count < 10 then ConfidenceLevel.low
  else ConfidenceLevel.high

/-- `NexusEngine._calculate_registration_deadline`. -/
def calculate_registration_deadline (nexus_date : PyDate) (threshold_days : Nat) : PyDate :=
  date_add_days nexus_date threshold_days

/-- A `NexusResult` row as the engine writes it.  The engine's
`nexus_status` and the `overall_determination` attribute the liability
engine filters on are modelled by the single `nexus_status` field; the
free-text recommendation and notes are not modelled. -/
structure NexusResultRow where
  analysis_id : String
  state : String
  nexus_status : NexusStatus
  nexus_date : Option PyDate
  physical_nexus : Bool
  economic_nexus : Bool
  total_sales : Rat
  taxable_sales : Rat
  transaction_count : Nat
  sales_threshold : Option Rat
  transaction_threshold : Option Nat
  threshold_type : Option ThresholdType
  measurement_period : Option MeasurementPeriod
  confidence_level : ConfidenceLevel
  registration_deadline : Option PyDate
  close_to_threshold : Bool
  threshold_percentage : Option Rat
  days_until_threshold : Option Int
deriving DecidableEq, Repr

/-- `StateTaxConfig` (the fields the liability engine reads). -/
structure StateTaxConfig where
  state_code : String
  state_tax_rate : Rat
  avg_local_tax_rate : Option Rat := none
  has_sales_tax : Bool := true
deriving DecidableEq, Repr

/-- `RiskLevel` from `models/liability_estimate.py`. -/
inductive RiskLevel where
  | high : RiskLevel
  | medium : RiskLevel
  | low : RiskLevel
deriving DecidableEq, Repr

/-- A `LiabilityEstimate` row as the liability engine writes it
(numeric and date fields; the free-text recommendation and assumptions
are not modelled). -/
structure LiabilityEstimate where
  analysis_id : String
  state : String
  period_start : PyDate
  period_end : PyDate
  gross_sales : Rat
  exempt_sales : Rat
  marketplace_sales : Rat
  taxable_sales : Rat
  state_tax_rate : Rat
  avg_local_tax_rate : Option Rat
  estimated_liability_low : Rat
  estimated_liability_mid : Rat
  estimated_liability_high : Rat
  lookback_period_months : Nat
  lookback_start_date : Option PyDate
  lookback_end_date : Option PyDate
  lookback_liability_estimate : Option Rat
  penalty_amount : Option Rat
  interest_amount : Option Rat
  total_liability_with_penalties : Option Rat
  exemption_rate_assumed : Rat
  risk_level : RiskLevel
deriving DecidableEq, Repr

/-- The database state shared by the two engines. -/
structure DB where
  analyses : List Analysis := []
  business_profiles : List BusinessProfile := []
  nexus_rules : List NexusRule := []
  transactions : List Transaction := []
  state_tax_configs : List StateTaxConfig := []
  nexus_results : List NexusResultRow := []
  liability_estimates : List LiabilityEstimate := []
deriving Repr

/-- Build one `NexusResult` row for one rule (the body of the
`determine_nexus` loop). -/
def nexus_result_for_rule (txns : List Transaction) (analysis_id : String)
    (business_profile : Option BusinessProfile) (physical_nexus_states : List String)
    (period_end : PyDate) (rule : NexusRule) : Except PyError NexusResultRow := do
  let state := rule.state_code
  let has_physical_nexus := physical_nexus_states.contains state
  let economic_result ← check_economic_nexus txns analysis_id state rule period_end
  let (nexus_status, nexus_date) :=
    if has_physical_nexus then
      (NexusStatus.nexus_physical, determine_physical_nexus_date business_profile state)
    else if economic_result.has_nexus then
      (NexusStatus.nexus_economic, economic_result.nexus_date)
    else if economic_result.close_to_threshold then
      (NexusStatus.close_to_threshold, none)
    else
      (NexusStatus.no_nexus, none)
  let confidence := calculate_confidence_level has_physical_nexus economic_result
  let registration_deadline :=
    match nexus_date with
    | some d =>
      if nexus_status == NexusStatus.nexus_physical ||
         nexus_status == NexusStatus.nexus_economic then
        -- `rule.registration_threshold_days or 60` (both None and 0 are falsy)
        some (calculate_registration_deadline d
          (match rule.registration_threshold_days with
           | none => 60
           | some n => if n == 0 then 60 else n))
      else none
    | none => none
  pure {
    analysis_id := analysis_id,
    state := state,
    nexus_status := nexus_status,
    nexus_date := nexus_date,
    physical_nexus := has_physical_nexus,
    economic_nexus := economic_result.has_nexus,
    total_sales := economic_result.total_sales,
    taxable_sales := economic_result.taxable_sales,
    transaction_count := economic_result.transaction_count,
    sales_threshold := rule.sales_threshold,
    transaction_threshold := rule.transaction_threshold,
    threshold_type := rule.threshold_type,
    measurement_period := rule.measurement_period,
    confidence_level := confidence,
    registration_deadline := registration_deadline,
    close_to_threshold := economic_result.close_to_threshold,
    threshold_percentage := economic_result.threshold_percentage,
    days_until_threshold := economic_result.days_until_threshold }

/-- `NexusEngine.determine_nexus`: load the profile (if not passed) and
the analysis (`ValueError` when absent), compute the physical-nexus state
set as of `today`, build one result row per economic nexus rule, and add
all rows to the database.  Nothing deletes previously stored rows for
the analysis. -/
def determine_nexus (db : DB) (analysis_id : String)
    (business_profile : Option BusinessProfile) (today : PyDate) :
    Except PyError (List NexusResultRow × DB) := do
  let business_profile :=
    match business_profile with
    | some bp => some bp
    | none => db.business_profiles.find? (fun bp => bp.analysis_id == analysis_id)
  let analysis ←
    match db.analyses.find? (fun a => a.analysis_id == analysis_id) with
    | some a => pure a
    | none => Except.error PyError.valueError
  let physical_nexus_states :=
    match business_profile with
    | some bp => get_physical_nexus_states bp today
    | none => []
  let nexus_rules := db.nexus_rules.filter (fun r => r.nexus_type == "economic")
  let results ← nexus_rules.mapM
    (nexus_result_for_rule db.transactions analysis_id business_profile
      physical_nexus_states analysis.period_end)
  pure (results, { db with nexus_results := db.nexus_results ++ results })

/-- `DEFAULT_EXEMPTION_RATE = 0.10`. -/
def DEFAULT_EXEMPTION_RATE : Rat := 10 / 100

/-- `DEFAULT_PENALTY_RATE = 0.10`. -/
def DEFAULT_PENALTY_RATE : Rat := 10 / 100

/-- `MONTHLY_INTEREST_RATE = 0.01`. -/
def MONTHLY_INTEREST_RATE : Rat := 1 / 100

/-- `DEFAULT_LOOKBACK_MONTHS = 36`. -/
def DEFAULT_LOOKBACK_MONTHS : Nat := 36

/-- `MAX_LOOKBACK_MONTHS = 48`. -/
def MAX_LOOKBACK_MONTHS : Nat := 48

/-- The dict returned by `_calculate_period_liability`. -/
structure PeriodLiability where
  gross_sales : Rat
  exempt_sales : Rat
  marketplace_sales : Rat
  taxable_sales : Rat
  low_estimate : Rat
  mid_estimate : Rat
  high_estimate : Rat
  effective_rate_low : Rat
  effective_rate_mid : Rat
  effective_rate_high : Rat
deriving DecidableEq, Repr

/-- `LiabilityEngine._calculate_period_liability`: aggregate the state's
transactions over the period (a sale that is both exempt and marketplace
is accumulated into both buckets), subtract marketplace and exempt sales
from the gross, apply the exemption-rate haircut, clamp at zero, and
price the result at state-only / state+half-local / state+full-local
rates (the stored rates are divided by 100). -/
def calculate_period_liability (txns : List Transaction) (analysis_id state : String)
    (tax_config : StateTaxConfig) (period_start period_end : PyDate)
    (exemption_rate : Rat) : PeriodLiability :=
  let transactions := txns.filter (fun t =>
    t.analysis_id == analysis_id && t.customer_state == state &&
    date_le period_start t.transaction_date && date_le t.transaction_date period_end)
  let (gross_sales, exempt_sales, marketplace_sales) :=
    transactions.foldl
      (fun (acc : Rat × Rat × Rat) txn =>
        let (g, e, m) := acc
        let g := g + txn.gross_amount
        let e := if txn.is_exempt_sale then e + txn.gross_amount else e
        let m := if txn.is_marketplace_sale then m + txn.gross_amount else m
        (g, e, m))
      (0, 0, 0)
  let potentially_taxable := gross_sales - marketplace_sales - exempt_sales
  let additional_exempt := potentially_taxable * exemption_rate
  let taxable_sales := potentially_taxable - additional_exempt
  let taxable_sales := max taxable_sales 0
  let state_rate := tax_config.state_tax_rate / 100
  let avg_local_rate := (tax_config.avg_local_tax_rate.getD 0) / 100
  let low_estimate := taxable_sales * state_rate
  let mid_rate := state_rate + avg_local_rate * (1 / 2)
  let mid_estimate := taxable_sales * mid_rate
  let high_rate := state_rate + avg_local_rate
  let high_estimate := taxable_sales * high_rate
  { gross_sales := gross_sales,
    exempt_sales := exempt_sales,
    marketplace_sales := marketplace_sales,
    taxable_sales := taxable_sales,
    low_estimate := low_estimate,
    mid_estimate := mid_estimate,
    high_estimate := high_estimate,
    effective_rate_low := state_rate * 100,
    effective_rate_mid := mid_rate * 100,
    effective_rate_high := high_rate * 100 }

/-- `(a.year - b.year) * 12 + (a.month - b.month)`: the calendar-month
difference used for both the lookback period and the interest months. -/
def month_diff (a b : PyDate) : Int :=
  ((a.year : Int) - (b.year : Int)) * 12 + ((a.month : Int) - (b.month : Int))

/-- `LiabilityEngine._determine_lookback_period`: months since the nexus
date, capped at 36 then 48, floored at 0; 0 when there is no nexus date. -/
def determine_lookback_period (nexus_date : Option PyDate) (today : PyDate) : Nat :=
  match nexus_date with
  | none => 0
  | some nd =>
    let months_since_nexus := month_diff today nd
    let lookback_months := min months_since_nexus (DEFAULT_LOOKBACK_MONTHS : Int)
    let lookback_months := min lookback_months (MAX_LOOKBACK_MONTHS : Int)
    (max 0 lookback_months).toNat

/-- `LiabilityEngine._calculate_lookback_dates`: the `lookback_months`
months ending at the nexus date. -/
def calculate_lookback_dates (nexus_date : PyDate) (lookback_months : Nat) :
    PyDate × PyDate :=
  (date_sub_months nexus_date lookback_months, nexus_date)

/-- `LiabilityEngine._calculate_penalties`: zero before or on the
deadline; afterwards a flat 10% penalty and 1% interest per
calendar-month difference between the current date and the deadline
(`(y2 - y1) * 12 + (m2 - m1)`, NOT whole elapsed months). -/
def calculate_penalties (liability_amount : Rat) (registration_deadline : PyDate)
    (current_date : PyDate) : Rat × Rat :=
  if date_le current_date registration_deadline then (0, 0)
  else
    let liability := liability_amount
    let penalty := liability * DEFAULT_PENALTY_RATE
    let months_late := month_diff current_date registration_deadline
    let interest := liability * MONTHLY_INTEREST_RATE * (months_late : Rat)
    (penalty, interest)

/-- `LiabilityEngine._assess_risk`: a weighted factor count. -/
def assess_risk (liability_amount : Rat) (nexus_status : NexusStatus)
    (confidence_level : ConfidenceLevel) (has_penalties : Bool) : RiskLevel :=
  let factors : Int := 0
  let factors := if nexus_status == NexusStatus.nexus_physical then factors + 2 else factors
  let factors :=
    if liability_amount > 50000 then factors + 2
    else if liability_amount > 10000 then factors + 1
    else factors
  let factors := if has_penalties then factors + 3 else factors
  let factors := if confidence_level == ConfidenceLevel.low then factors - 1 else factors
  if factors ≥ 5 then RiskLevel.high
  else if factors ≥ 3 then RiskLevel.medium
  else RiskLevel.low

/-- `x if x else None`: a zero Decimal is falsy, so a computed zero is
stored as NULL. -/
def none_if_zero (o : Option Rat) : Option Rat :=
  match o with
  | none => none
  | some q => if q = 0 then none else some q

/-- Build one `LiabilityEstimate` for one nexus-result row (the body of
the `calculate_liability` loop, after the tax-config guard). -/
def liability_estimate_for_result (db : DB) (analysis : Analysis)
    (exemption_rate : Rat) (include_penalties : Bool)
    (custom_lookback_months : Option Nat) (today : PyDate)
    (nexus_result : NexusResultRow) (tax_config : StateTaxConfig) : LiabilityEstimate :=
  let state := nexus_result.state
  let period_liability := calculate_period_liability db.transactions analysis.analysis_id
    state tax_config analysis.period_start analysis.period_end exemption_rate
  -- `custom_lookback_months or self._determine_lookback_period(...)`:
  -- None and 0 both fall through to the computed period
  let lookback_months :=
    match custom_lookback_months with
    | some n => if n == 0 then determine_lookback_period nexus_result.nexus_date today else n
    | none => determine_lookback_period nexus_result.nexus_date today
  let (lookback_liability, lookback_start_date, lookback_end_date) :=
    match nexus_result.nexus_date with
    | some nd =>
      if lookback_months > 0 then
        let (ls, le) := calculate_lookback_dates nd lookback_months
        (some (calculate_period_liability db.transactions analysis.analysis_id state
          tax_config ls le exemption_rate), some ls, some le)
      else (none, none, none)
    | none => (none, none, none)
  let (penalty_amount, interest_amount, total_liability_with_penalties) :=
    if include_penalties then
      match nexus_result.registration_deadline with
      | some deadline =>
        if date_lt deadline today then
          let (p, i) := calculate_penalties period_liability.mid_estimate deadline today
          (some p, some i, some (period_liability.mid_estimate + p + i))
        else (none, none, none)
      | none => (none, none, none)
    else (none, none, none)
  let risk_level := assess_risk period_liability.mid_estimate nexus_result.nexus_status
    nexus_result.confidence_level (penalty_amount.elim false (fun p => p ≠ 0))
  { analysis_id := analysis.analysis_id,
    state := state,
    period_start := analysis.period_start,
    period_end := analysis.period_end,
    gross_sales := period_liability.gross_sales,
    exempt_sales := period_liability.exempt_sales,
    marketplace_sales := period_liability.marketplace_sales,
    taxable_sales := period_liability.taxable_sales,
    state_tax_rate := tax_config.state_tax_rate,
    avg_local_tax_rate := tax_config.avg_local_tax_rate,
    estimated_liability_low := period_liability.low_estimate,
    estimated_liability_mid := period_liability.mid_estimate,
    estimated_liability_high := period_liability.high_estimate,
    lookback_period_months := lookback_months,
    lookback_start_date := lookback_start_date,
    lookback_end_date := lookback_end_date,
    lookback_liability_estimate := (lookback_liability.map PeriodLiability.mid_estimate),
    penalty_amount := none_if_zero penalty_amount,
    interest_amount := none_if_zero interest_amount,
    total_liability_with_penalties := none_if_zero total_liability_with_penalties,
    exemption_rate_assumed := exemption_rate,
    risk_level := risk_level }

/-- `LiabilityEngine.calculate_liability`: take the analysis's nexus
results whose determination is physical or economic nexus; skip any
state without a tax config or whose config has no sales tax; build and
store a liability estimate for each remaining state. -/
def calculate_liability (db : DB) (analysis_id : String)
    (exemption_rate : Option Rat) (include_penalties : Bool)
    (custom_lookback_months : Option Nat) (today : PyDate) :
    Except PyError (List LiabilityEstimate × DB) := do
  let exemption_rate := exemption_rate.getD DEFAULT_EXEMPTION_RATE
  let analysis ←
    match db.analyses.find? (fun a => a.analysis_id == analysis_id) with
    | some a => pure a
    | none => Except.error PyError.valueError
  let nexus_results := db.nexus_results.filter (fun r =>
    r.analysis_id == analysis_id &&
    (r.nexus_status == NexusStatus.nexus_physical ||
     r.nexus_status == NexusStatus.nexus_economic))
  let liability_estimates := nexus_results.filterMap (fun nexus_result =>
    match db.state_tax_configs.find? (fun tc => tc.state_code == nexus_result.state) with
    | none => none
    | some tax_config =>
      if !tax_config.has_sales_tax then none
      else some (liability_estimate_for_result db analysis exemption_rate
        include_penalties custom_lookback_months today nexus_result tax_config))
  pure (liability_estimates,
    { db with liability_estimates := db.liability_estimates ++ liability_estimates })

/-! ## Claim theorems -/

/-- C10: on a parsed batch with zero data rows, `process_dataframe` hits
no division by zero: the `total_rows > 0` guard defines the quality
percentage as 0, the quality gate rejects the batch, nothing is
persisted, and an explicit result object is returned. -/
theorem c10_empty_batch_rejected_safely (analysis_id : String) :
    (process_dataframe [] analysis_id).success = false ∧
    (process_dataframe [] analysis_id).quality_percentage = 0 ∧
    (process_dataframe [] analysis_id).persisted = [] ∧
    (process_dataframe [] analysis_id).total_rows = 0 ∧
    (process_dataframe [] analysis_id).error = some "Data quality too low" := by
  refine ⟨rfl, rfl, rfl, rfl, rfl⟩

/-- Analysis, rule and dates for the duplicate-row run of `determine_nexus`. -/
def c1_db : DB :=
  { analyses := [{ analysis_id := "A",
                   period_start := { year := 2023, month := 1, day := 1 },
                   period_end := { year := 2023, month := 12, day := 31 } }],
    nexus_rules := [{ state_code := "TX",
                      nexus_type := "economic",
                      sales_threshold := some 100000,
                      threshold_type := some ThresholdType.sales_only,
                      measurement_period := some MeasurementPeriod.calendar_year }] }

/-- C1 (code bug): running `determine_nexus` twice on the same analysis
and reference data leaves TWO `NexusResult` rows for the (analysis,
state) pair — the stage only appends (`db.add`) and never deletes or
overwrites its prior output, contradicting the stated per-(analysis,
state) uniqueness (and the model's own "One record per state per
analysis" docstring). -/
theorem c1_rerun_appends_duplicate_rows :
    ((determine_nexus c1_db "A" none { year := 2024, month := 1, day := 15 }).bind
      (fun p => determine_nexus p.2 "A" none { year := 2024, month := 1, day := 15 })).map
      (fun p => (p.2.nexus_results.filter
        (fun r => r.analysis_id == "A" && r.state == "TX")).length)
      = Except.ok 2 := by
  rfl

/-- Decidable equality of `Except` results (for evaluating concrete runs). -/
instance {ε α : Type} [DecidableEq ε] [DecidableEq α] : DecidableEq (Except ε α) := by
  intro x y
  cases x <;> cases y
  case error.error a b =>
    exact match decEq a b with
      | isTrue h => isTrue (by rw [h])
      | isFalse h => isFalse (fun he => by cases he; exact h rfl)
  case ok.ok a b =>
    exact match decEq a b with
      | isTrue h => isTrue (by rw [h])
      | isFalse h => isFalse (fun he => by cases he; exact h rfl)
  case error.ok a b => exact isFalse (fun h => by cases h)
  case ok.error a b => exact isFalse (fun h => by cases h)

/-- A rule and transaction putting taxable sales at twice the $100,000
threshold (well over 1.5x). -/
def c5_rule : NexusRule :=
  { state_code := "CA",
    sales_threshold := some 100000,
    threshold_type := some ThresholdType.sales_only,
    measurement_period := some MeasurementPeriod.calendar_year }

/-- A single $200,000 direct sale in the 2023 window. -/
def c5_txn : Transaction :=
  { analysis_id := "A",
    transaction_date := { year := 2023, month := 6, day := 1 },
    customer_state := "CA",
    gross_amount := 200000 }

/-- C5 (code bug): with taxable sales of $200,000 against a $100,000
threshold (2x, beyond the 1.5x mark), the economic-nexus confidence
level comes out MEDIUM, not the stated HIGH: the source reads
`economic_result.get('sales_threshold', 0)` but `_check_economic_nexus`
never returns a `sales_threshold` key, so the 1.5x HIGH branch can never
fire. -/
theorem c5_economic_confidence_never_high :
    (check_economic_nexus [c5_txn] "A" "CA" c5_rule
        { year := 2023, month := 12, day := 31 }).map
      (fun er => (er.has_nexus, er.taxable_sales,
        calculate_confidence_level false er))
      = Except.ok (true, 200000, ConfidenceLevel.medium) := by
  decide

/-- C6 counterexample: with the registration deadline yesterday
(2026-10-11, today 2026-10-12 — the same calendar month), the penalty is
10% of the mid estimate but the interest is ZERO, because the source
counts months as `(y2-y1)*12 + (m2-m1)`; the claim promised non-zero
interest for any yesterday deadline. -/
theorem c6_yesterday_deadline_zero_interest :
    calculate_penalties 1000 { year := 2026, month := 10, day := 11 }
        { year := 2026, month := 10, day := 12 } = (100, 0) ∧
    date_lt { year := 2026, month := 10, day := 11 }
        { year := 2026, month := 10, day := 12 } = true := by
  exact ⟨by decide, by decide⟩

/-- Unfolding `date_le` to a lexicographic proposition. -/
theorem date_le_eq_true_iff (d1 d2 : PyDate) :
    date_le d1 d2 = true ↔
      d1.year < d2.year ∨ d1.year = d2.year ∧
        (d1.month < d2.month ∨ d1.month = d2.month ∧ d1.day ≤ d2.day) := by
  unfold date_le
  by_cases h1 : d1.year = d2.year <;> by_cases h2 : d1.month = d2.month <;>
    simp [h1, h2]

/-- Unfolding `date_lt` to a lexicographic proposition. -/
theorem date_lt_eq_true_iff (d1 d2 : PyDate) :
    date_lt d1 d2 = true ↔
      d1.year < d2.year ∨ d1.year = d2.year ∧
        (d1.month < d2.month ∨ d1.month = d2.month ∧ d1.day < d2.day) := by
  obtain ⟨y1, m1, a1⟩ := d1
  obtain ⟨y2, m2, a2⟩ := d2
  simp only [date_lt, Bool.and_eq_true, date_le_eq_true_iff, bne_iff_ne, ne_eq,
    PyDate.mk.injEq, not_and]
  by_cases h1 : y1 = y2 <;> by_cases h2 : m1 = m2 <;> by_cases h3 : a1 = a2 <;>
    simp [h1, h2, h3] <;> try omega

/-- `date_le` is reflexive. -/
theorem date_le_refl (d : PyDate) : date_le d d = true := by
  simp [date_le_eq_true_iff]

/-- `date_le` is transitive. -/
theorem date_le_trans {a b c : PyDate} (h1 : date_le a b = true)
    (h2 : date_le b c = true) : date_le a c = true := by
  rw [date_le_eq_true_iff] at h1 h2 ⊢
  rcases h1 with h | ⟨e1, h | ⟨f1, g1⟩⟩ <;> rcases h2 with h' | ⟨e2, h' | ⟨f2, g2⟩⟩
  all_goals omega

/-- `date_lt` implies `date_le`. -/
theorem date_lt_le {a b : PyDate} (h : date_lt a b = true) : date_le a b = true := by
  rw [date_lt_eq_true_iff] at h
  rw [date_le_eq_true_iff]
  rcases h with h | ⟨e, h | ⟨f, g⟩⟩
  · exact Or.inl h
  · exact Or.inr ⟨e, Or.inl h⟩
  · exact Or.inr ⟨e, Or.inr ⟨f, Nat.le_of_lt g⟩⟩

/-- Failure of `date_lt` gives the reverse `date_le` (totality). -/
theorem date_not_lt_le {a b : PyDate} (h : date_lt a b = false) : date_le b a = true := by
  have hn : ¬ (a.year < b.year ∨ a.year = b.year ∧
      (a.month < b.month ∨ a.month = b.month ∧ a.day < b.day)) := by
    rw [← date_lt_eq_true_iff]
    simp [h]
  rw [date_le_eq_true_iff]
  push_neg at hn
  obtain ⟨hy, hrest⟩ := hn
  by_cases e : b.year = a.year
  · refine Or.inr ⟨e, ?_⟩
    obtain ⟨hm, hrest2⟩ := hrest e.symm
    by_cases f : b.month = a.month
    · exact Or.inr ⟨f, by have := hrest2 f.symm; omega⟩
    · exact Or.inl (by omega)
  · exact Or.inl (by omega)

/-- The recorded establishment dates of a profile's locations matching a
state (case-insensitively) — the pool `_determine_physical_nexus_date`
minimizes over. -/
def matching_established_dates (bp : BusinessProfile) (state : String) : List PyDate :=
  bp.physical_locations.filterMap (fun loc =>
    if py_upper loc.state == py_upper state then loc.established_date else none)

/-- Modelled from the claim's wording, for comparison with the code: the
earliest `established_date` among the state's locations that are ACTIVE
as of `as_of_date` (a location counts only if
`established_date <= as_of_date` and `closed_date` is null or after
`as_of_date`). -/
def claimed_earliest_active_established_date (bp : BusinessProfile) (state : String)
    (as_of_date : PyDate) : Option PyDate :=
  let dates := bp.physical_locations.filterMap (fun loc =>
    if py_upper loc.state == py_upper state then
      match loc.established_date with
      | some d =>
        if date_le d as_of_date &&
           loc.closed_date.elim true (fun c => date_lt as_of_date c) then some d
        else none
      | none => none
    else none)
  dates.foldl
    (fun acc d =>
      match acc with
      | none => some d
      | some e => if date_lt d e then some d else some e)
    none

/-- CA profile: one closed location established 2018 (closed 2019), one
open location established 2021. -/
def c9_profile : BusinessProfile :=
  { analysis_id := "A",
    has_physical_presence := true,
    physical_locations :=
      [{ state := "CA",
         established_date := some { year := 2018, month := 1, day := 1 },
         closed_date := some { year := 2019, month := 1, day := 1 } },
       { state := "CA",
         established_date := some { year := 2021, month := 6, day := 1 } }] }

/-- C9 counterexample: as of 2023-01-01 the only ACTIVE California
location was established 2021-06-01 (and CA is indeed a physical-nexus
state as of that date), but `_determine_physical_nexus_date` returns
2018-01-01 — the establishment date of a location closed in 2019: the
function never consults `closed_date` or any as-of date. -/
theorem c9_nexus_date_ignores_active_filter :
    determine_physical_nexus_date (some c9_profile) "CA" =
      some { year := 2018, month := 1, day := 1 } ∧
    claimed_earliest_active_established_date c9_profile "CA"
        { year := 2023, month := 1, day := 1 } =
      some { year := 2021, month := 6, day := 1 } ∧
    get_physical_nexus_states c9_profile { year := 2023, month := 1, day := 1 } = ["CA"] ∧
    some ({ year := 2018, month := 1, day := 1 } : PyDate) ≠
      some ({ year := 2021, month := 6, day := 1 } : PyDate) := by
  refine ⟨by decide, by decide, by decide, by decide⟩

/-- Characterization of the `phys_date_step` fold: it returns the
minimum (under `date_le`) of the accumulator and the matching recorded
establishment dates. -/
theorem phys_fold_char (state : String) (locs : List PhysicalLocation) :
    ∀ acc : Option PyDate,
    (locs.foldl (phys_date_step state) acc = none ↔
      acc = none ∧ (locs.filterMap (fun loc =>
        if py_upper loc.state == py_upper state then loc.established_date else none)) = []) ∧
    (∀ d, locs.foldl (phys_date_step state) acc = some d →
      (acc = some d ∨ d ∈ locs.filterMap (fun loc =>
        if py_upper loc.state == py_upper state then loc.established_date else none)) ∧
      (∀ e, acc = some e → date_le d e = true) ∧
      (∀ d' ∈ locs.filterMap (fun loc =>
        if py_upper loc.state == py_upper state then loc.established_date else none),
        date_le d d' = true)) := by
  induction locs with
  | nil =>
    intro acc
    refine ⟨by simp, ?_⟩
    intro d hd
    simp only [List.foldl_nil] at hd
    refine ⟨Or.inl hd, ?_, by simp⟩
    intro e he
    rw [hd] at he
    cases he
    exact date_le_refl d
  | cons loc rest ih =>
    intro acc
    by_cases hmatch : py_upper loc.state = py_upper state
    · cases hest : loc.established_date with
      | none =>
        have hstep : phys_date_step state acc loc = acc := by
          simp [phys_date_step, hmatch, hest]
        have hfm : (List.filterMap (fun loc =>
            if py_upper loc.state == py_upper state then loc.established_date else none)
            (loc :: rest)) = rest.filterMap (fun loc =>
            if py_upper loc.state == py_upper state then loc.established_date else none) := by
          simp [List.filterMap_cons, hmatch, hest]
        constructor
        · simp only [List.foldl_cons, hstep, hfm]
          exact (ih acc).1
        · intro d hd
          simp only [List.foldl_cons, hstep] at hd
          simp only [hfm]
          exact (ih acc).2 d hd
      | some d0 =>
        have hfm : (List.filterMap (fun loc =>
            if py_upper loc.state == py_upper state then loc.established_date else none)
            (loc :: rest)) = d0 :: rest.filterMap (fun loc =>
            if py_upper loc.state == py_upper state then loc.established_date else none) := by
          simp [List.filterMap_cons, hmatch, hest]
        cases acc with
        | none =>
          have hstep : phys_date_step state none loc = some d0 := by
            simp [phys_date_step, hmatch, hest]
          constructor
          · simp only [List.foldl_cons, hstep, hfm, ((ih (some d0)).1)]
            simp
          · intro d hd
            simp only [List.foldl_cons, hstep] at hd
            obtain ⟨hmem, hle_acc, hle_rest⟩ := (ih (some d0)).2 d hd
            have hd0 : date_le d d0 = true := hle_acc d0 rfl
            simp only [hfm]
            refine ⟨?_, ?_, ?_⟩
            · right
              rcases hmem with h | h
              · cases h
                exact List.mem_cons_self _ _
              · exact List.mem_cons_of_mem _ h
            · intro e he
              cases he
            · intro d' hd'
              rcases List.mem_cons.1 hd' with h | h
              · subst h; exact hd0
              · exact hle_rest d' h
        | some e0 =>
          by_cases hlt : date_lt d0 e0 = true
          · have hstep : phys_date_step state (some e0) loc = some d0 := by
              simp [phys_date_step, hmatch, hest, hlt]
            have h0e : date_le d0 e0 = true := date_lt_le hlt
            constructor
            · simp only [List.foldl_cons, hstep, hfm, ((ih (some d0)).1)]
              simp
            · intro d hd
              simp only [List.foldl_cons, hstep] at hd
              obtain ⟨hmem, hle_acc, hle_rest⟩ := (ih (some d0)).2 d hd
              have hd0 : date_le d d0 = true := hle_acc d0 rfl
              simp only [hfm]
              refine ⟨?_, ?_, ?_⟩
              · right
                rcases hmem with h | h
                · cases h
                  exact List.mem_cons_self _ _
                · exact List.mem_cons_of_mem _ h
              · intro e he
                cases he
                exact date_le_trans hd0 h0e
              · intro d' hd'
                rcases List.mem_cons.1 hd' with h | h
                · subst h; exact hd0
                · exact hle_rest d' h
          · have hstep : phys_date_step state (some e0) loc = some e0 := by
              simp [phys_date_step, hmatch, hest, hlt]
            have he0 : date_le e0 d0 = true := by
              apply date_not_lt_le
              exact Bool.not_eq_true _ ▸ hlt
            constructor
            · simp only [List.foldl_cons, hstep, hfm, ((ih (some e0)).1)]
              simp
            · intro d hd
              simp only [List.foldl_cons, hstep] at hd
              obtain ⟨hmem, hle_acc, hle_rest⟩ := (ih (some e0)).2 d hd
              have hde0 : date_le d e0 = true := hle_acc e0 rfl
              simp only [hfm]
              refine ⟨?_, ?_, ?_⟩
              · rcases hmem with h | h
                · exact Or.inl h
                · exact Or.inr (List.mem_cons_of_mem _ h)
              · intro e he
                cases he
                exact hde0
              · intro d' hd'
                rcases List.mem_cons.1 hd' with h | h
                · subst h
                  exact date_le_trans hde0 he0
                · exact hle_rest d' h
    · have hstep : phys_date_step state acc loc = acc := by
        simp [phys_date_step, hmatch]
      have hfm : (List.filterMap (fun loc =>
          if py_upper loc.state == py_upper state then loc.established_date else none)
          (loc :: rest)) = rest.filterMap (fun loc =>
          if py_upper loc.state == py_upper state then loc.established_date else none) := by
        simp [List.filterMap_cons, hmatch]
      constructor
      · simp only [List.foldl_cons, hstep, hfm]
        exact (ih acc).1
      · intro d hd
        simp only [List.foldl_cons, hstep] at hd
        simp only [hfm]
        exact (ih acc).2 d hd

/-- C9 (amended): `_determine_physical_nexus_date` returns the earliest
recorded `established_date` among ALL of the state's locations
(case-insensitive state match) with no activity or as-of-date filtering
— `closed_date` is never consulted — and null exactly when no matching
location has a recorded establishment date.  (The active-location
filter of the original claim applies only to
`get_physical_nexus_states`, which selects WHICH states have physical
nexus.) -/
theorem c9_amended_earliest_over_all_matching (bp : BusinessProfile) (state : String) :
    (determine_physical_nexus_date (some bp) state = none ↔
      matching_established_dates bp state = []) ∧
    (∀ d, determine_physical_nexus_date (some bp) state = some d →
      d ∈ matching_established_dates bp state ∧
      ∀ d' ∈ matching_established_dates bp state, date_le d d' = true) := by
  have h := phys_fold_char state bp.physical_locations none
  unfold determine_physical_nexus_date matching_established_dates
  by_cases hempty : bp.physical_locations = []
  · simp [hempty]
  · simp only [if_neg hempty]
    constructor
    · rw [h.1]
      simp
    · intro d hd
      obtain ⟨hmem, _, hrest⟩ := h.2 d hd
      refine ⟨?_, hrest⟩
      rcases hmem with hmem | hmem
      · exact absurd hmem (by simp)
      · exact hmem

/-- C9 amended witness: the characterization applied to the concrete CA
profile — the returned 2018-01-01 date belongs to the matching pool and
is its minimum. -/
theorem c9_amended_witness :
    determine_physical_nexus_date (some c9_profile) "CA" =
      some { year := 2018, month := 1, day := 1 } ∧
    ({ year := 2018, month := 1, day := 1 } : PyDate) ∈
      matching_established_dates c9_profile "CA" ∧
    (∀ d' ∈ matching_established_dates c9_profile "CA",
      date_le { year := 2018, month := 1, day := 1 } d' = true) := by
  have h := (c9_amended_earliest_over_all_matching c9_profile "CA").2
    { year := 2018, month := 1, day := 1 } (by decide)
  exact ⟨by decide, h.1, h.2⟩

/-- A liability-engine database: analysis period 2026-01-01..2026-09-30,
one TX nexus row with registration deadline 2026-10-13 (tomorrow
relative to the run date 2026-10-12) and one CA nexus row with deadline
2026-10-11 (yesterday, same calendar month). -/
def c6_db : DB :=
  { analyses := [{ analysis_id := "A",
                   period_start := { year := 2026, month := 1, day := 1 },
                   period_end := { year := 2026, month := 9, day := 30 } }],
    transactions :=
      [{ analysis_id := "A", transaction_date := { year := 2026, month := 5, day := 1 },
         customer_state := "TX", gross_amount := 1000 },
       { analysis_id := "A", transaction_date := { year := 2026, month := 5, day := 1 },
         customer_state := "CA", gross_amount := 1000 }],
    state_tax_configs :=
      [{ state_code := "TX", state_tax_rate := 6, avg_local_tax_rate := some 2 },
       { state_code := "CA", state_tax_rate := 6, avg_local_tax_rate := some 2 }],
    nexus_results :=
      [{ analysis_id := "A", state := "TX", nexus_status := NexusStatus.nexus_economic,
         nexus_date := some { year := 2026, month := 5, day := 1 },
         physical_nexus := false, economic_nexus := true,
         total_sales := 1000, taxable_sales := 1000, transaction_count := 1,
         sales_threshold := some 500, transaction_threshold := none,
         threshold_type := some ThresholdType.sales_only,
         measurement_period := some MeasurementPeriod.calendar_year,
         confidence_level := ConfidenceLevel.medium,
         registration_deadline := some { year := 2026, month := 10, day := 13 },
         close_to_threshold := false, threshold_percentage := some 200,
         days_until_threshold := none },
       { analysis_id := "A", state := "CA", nexus_status := NexusStatus.nexus_economic,
         nexus_date := some { year := 2026, month := 5, day := 1 },
         physical_nexus := false, economic_nexus := true,
         total_sales := 1000, taxable_sales := 1000, transaction_count := 1,
         sales_threshold := some 500, transaction_threshold := none,
         threshold_type := some ThresholdType.sales_only,
         measurement_period := some MeasurementPeriod.calendar_year,
         confidence_level := ConfidenceLevel.medium,
         registration_deadline := some { year := 2026, month := 10, day := 11 },
         close_to_threshold := false, threshold_percentage := some 200,
         days_until_threshold := none }] }

/-- C6 (amended): penalty and interest are computed only when penalties
are requested and today is strictly past the deadline; penalty is
mid-estimate x 10%; interest is mid-estimate x 1% per CALENDAR-month
difference `(y2-y1)*12 + (m2-m1)` — NOT per whole elapsed month — so a
yesterday deadline in the same calendar month yields non-zero penalty
but zero interest (stored as NULL), while a yesterday deadline across a
month boundary yields one month of interest; a tomorrow deadline yields
both null/zero, as does `include_penalties = False`. -/
theorem c6_amended_interest_by_calendar_month (liability : Rat) (deadline today : PyDate) :
    (date_le today deadline = true → calculate_penalties liability deadline today = (0, 0)) ∧
    (date_le today deadline = false →
      calculate_penalties liability deadline today =
        (liability * DEFAULT_PENALTY_RATE,
         liability * MONTHLY_INTEREST_RATE * ((month_diff today deadline : Int) : Rat))) ∧
    calculate_penalties 1000 { year := 2026, month := 10, day := 11 }
      { year := 2026, month := 10, day := 12 } = (100, 0) ∧
    calculate_penalties 1000 { year := 2026, month := 9, day := 30 }
      { year := 2026, month := 10, day := 1 } = (100, 10) ∧
    calculate_penalties 1000 { year := 2026, month := 10, day := 13 }
      { year := 2026, month := 10, day := 12 } = (0, 0) ∧
    ((calculate_liability c6_db "A" none true none
        { year := 2026, month := 10, day := 12 }).map (fun p =>
      p.1.map (fun e => (e.state, e.penalty_amount, e.interest_amount,
        e.total_liability_with_penalties)))
      = Except.ok [("TX", none, none, none),
                   ("CA", some (63 / 10), none, some (693 / 10))]) ∧
    ((calculate_liability c6_db "A" none false none
        { year := 2026, month := 10, day := 12 }).map (fun p =>
      p.1.map (fun e => (e.state, e.penalty_amount, e.interest_amount,
        e.total_liability_with_penalties)))
      = Except.ok [("TX", none, none, none), ("CA", none, none, none)]) := by
  refine ⟨?_, ?_, by decide, by decide, by decide, by decide, by decide⟩
  · intro h
    simp [calculate_penalties, h]
  · intro h
    simp [calculate_penalties, h]

/-- C6 amended witness: the amended theorem applied at liability 1000,
deadline 2026-10-11, today 2026-10-12. -/
theorem c6_amended_witness :
    date_le { year := 2026, month := 10, day := 12 }
      { year := 2026, month := 10, day := 11 } = false ∧
    calculate_penalties 1000 { year := 2026, month := 10, day := 11 }
      { year := 2026, month := 10, day := 12 } =
      (1000 * DEFAULT_PENALTY_RATE,
       1000 * MONTHLY_INTEREST_RATE *
         ((month_diff { year := 2026, month := 10, day := 12 }
           { year := 2026, month := 10, day := 11 } : Int) : Rat)) :=
  ⟨by decide,
   (c6_amended_interest_by_calendar_month 1000
     { year := 2026, month := 10, day := 11 }
     { year := 2026, month := 10, day := 12 }).2.1 (by decide)⟩

/-- The `_check_economic_nexus` accumulation loop computes: the sum of
all gross amounts, the sum over non-excluded non-exempt transactions,
the count of all transactions, and the sum over excluded marketplace
transactions. -/
theorem economic_totals_char (l : List Transaction) (ex : Bool) :
    economic_totals l ex =
      ((l.map Transaction.gross_amount).sum,
       ((l.filter (fun t => !(t.is_marketplace_sale && ex) && !t.is_exempt_sale)).map
         Transaction.gross_amount).sum,
       l.length,
       ((l.filter (fun t => t.is_marketplace_sale && ex)).map
         Transaction.gross_amount).sum) := by
  have gen : ∀ (l : List Transaction) (acc : Rat × Rat × Nat × Rat),
      l.foldl
        (fun (acc : Rat × Rat × Nat × Rat) txn =>
          let (total, taxable, count, mkt) := acc
          let total := total + txn.gross_amount
          let count := count + 1
          if txn.is_marketplace_sale && ex then
            (total, taxable, count, mkt + txn.gross_amount)
          else if !txn.is_exempt_sale then
            (total, taxable + txn.gross_amount, count, mkt)
          else
            (total, taxable, count, mkt)) acc =
      (acc.1 + (l.map Transaction.gross_amount).sum,
       acc.2.1 + ((l.filter (fun t => !(t.is_marketplace_sale && ex) && !t.is_exempt_sale)).map
         Transaction.gross_amount).sum,
       acc.2.2.1 + l.length,
       acc.2.2.2 + ((l.filter (fun t => t.is_marketplace_sale && ex)).map
         Transaction.gross_amount).sum) := by
    intro l
    induction l with
    | nil => intro acc; simp
    | cons t rest ih =>
      intro acc
      obtain ⟨a1, a2, a3, a4⟩ := acc
      by_cases hm : (t.is_marketplace_sale && ex) = true
      · simp only [List.foldl_cons, hm, if_true, ih, List.map_cons, List.sum_cons,
          List.filter_cons, Bool.not_true, Bool.false_and, Bool.false_eq_true,
          if_false, List.length_cons]
        simp [hm]
        constructor
        · ring
        constructor
        · omega
        · ring
      · simp only [Bool.not_eq_true] at hm
        by_cases he : t.is_exempt_sale = true
        · simp only [List.foldl_cons, hm, Bool.false_eq_true, if_false, he,
            Bool.not_true, ih, List.map_cons, List.sum_cons, List.filter_cons,
            List.length_cons]
          simp [hm, he]
          constructor
          · ring
          · omega
        · simp only [Bool.not_eq_true] at he
          simp only [List.foldl_cons, hm, Bool.false_eq_true, if_false, he,
            Bool.not_false, if_true, ih, List.map_cons, List.sum_cons,
            List.filter_cons, List.length_cons]
          simp [hm, he]
          constructor
          · ring
          constructor
          · ring
          · omega
  have := gen l (0, 0, 0, 0)
  simpa [economic_totals] using this

/-- Inversion for `Except.bind` succeeding. -/
theorem except_bind_ok {ε α β : Type} {x : Except ε α} {f : α → Except ε β} {b : β}
    (h : x.bind f = Except.ok b) : ∃ a, x = Except.ok a ∧ f a = Except.ok b := by
  cases x with
  | error e => simp [Except.bind] at h
  | ok a => exact ⟨a, rfl, by simpa [Except.bind] using h⟩

/-- On a successful run, the dict returned by `_check_economic_nexus`
carries exactly the aggregates of its accumulation loop over the window,
and its close-to-threshold triple. -/
theorem check_econ_ok_fields {txns : List Transaction} {aid state : String}
    {rule : NexusRule} {pend : PyDate} {er : EconResult}
    (h : check_economic_nexus txns aid state rule pend = Except.ok er) :
    er.total_sales =
      (economic_totals
        (window_transactions txns aid state
          (calculate_measurement_period rule.measurement_period pend).1
          (calculate_measurement_period rule.measurement_period pend).2)
        rule.exclude_marketplace_sales).1 ∧
    er.taxable_sales =
      (economic_totals
        (window_transactions txns aid state
          (calculate_measurement_period rule.measurement_period pend).1
          (calculate_measurement_period rule.measurement_period pend).2)
        rule.exclude_marketplace_sales).2.1 ∧
    er.transaction_count =
      (economic_totals
        (window_transactions txns aid state
          (calculate_measurement_period rule.measurement_period pend).1
          (calculate_measurement_period rule.measurement_period pend).2)
        rule.exclude_marketplace_sales).2.2.1 ∧
    er.marketplace_sales =
      (economic_totals
        (window_transactions txns aid state
          (calculate_measurement_period rule.measurement_period pend).1
          (calculate_measurement_period rule.measurement_period pend).2)
        rule.exclude_marketplace_sales).2.2.2 ∧
    threshold_met rule er.taxable_sales er.transaction_count = Except.ok er.has_nexus := by
  unfold check_economic_nexus at h
  obtain ⟨b, hb, h2⟩ := except_bind_ok h
  cases b with
  | false =>
    simp only [Bool.false_eq_true, if_false, Except.bind, pure, Except.pure] at h2
    cases h2
    exact ⟨rfl, rfl, rfl, rfl, hb⟩
  | true =>
    simp only [if_true] at h2
    obtain ⟨nd, hnd, h3⟩ := except_bind_ok h2
    simp only [pure, Except.pure, Except.ok.injEq] at h3
    cases h3
    exact ⟨rfl, rfl, rfl, rfl, hb⟩

/-- The $100,000 SALES_ONLY rule that excludes marketplace sales. -/
def c4_rule : NexusRule :=
  { state_code := "CA",
    sales_threshold := some 100000,
    threshold_type := some ThresholdType.sales_only,
    measurement_period := some MeasurementPeriod.calendar_year,
    exclude_marketplace_sales := true }

/-- $90,000 of marketplace sales plus $20,000 of direct sales in the
2023 window. -/
def c4_txns : List Transaction :=
  [{ analysis_id := "A", transaction_date := { year := 2023, month := 3, day := 10 },
     customer_state := "CA", gross_amount := 90000, is_marketplace_sale := true },
   { analysis_id := "A", transaction_date := { year := 2023, month := 7, day := 5 },
     customer_state := "CA", gross_amount := 20000 }]

/-- C4: on every successful `_check_economic_nexus` run, `total_sales`
is the sum over ALL window transactions for the state, `taxable_sales`
sums only transactions that are neither excluded marketplace sales
(when the rule excludes them) nor exempt, and `transaction_count`
counts every window transaction (marketplace ones included);
in particular $90,000 of excluded marketplace sales plus $20,000 of
direct sales against a $100,000 SALES_ONLY threshold yields no nexus
(taxable = $20,000) while the reported `total_sales` is $110,000. -/
theorem c4_window_aggregates (txns : List Transaction) (aid state : String)
    (rule : NexusRule) (pend : PyDate) (er : EconResult)
    (h : check_economic_nexus txns aid state rule pend = Except.ok er) :
    (er.total_sales =
      ((window_transactions txns aid state
          (calculate_measurement_period rule.measurement_period pend).1
          (calculate_measurement_period rule.measurement_period pend).2).map
        Transaction.gross_amount).sum ∧
     er.taxable_sales =
      (((window_transactions txns aid state
          (calculate_measurement_period rule.measurement_period pend).1
          (calculate_measurement_period rule.measurement_period pend).2).filter
            (fun t => !(t.is_marketplace_sale && rule.exclude_marketplace_sales) &&
              !t.is_exempt_sale)).map
        Transaction.gross_amount).sum ∧
     er.transaction_count =
      (window_transactions txns aid state
          (calculate_measurement_period rule.measurement_period pend).1
          (calculate_measurement_period rule.measurement_period pend).2).length ∧
     er.marketplace_sales =
      (((window_transactions txns aid state
          (calculate_measurement_period rule.measurement_period pend).1
          (calculate_measurement_period rule.measurement_period pend).2).filter
            (fun t => t.is_marketplace_sale && rule.exclude_marketplace_sales)).map
        Transaction.gross_amount).sum) ∧
    ((check_economic_nexus c4_txns "A" "CA" c4_rule
        { year := 2023, month := 12, day := 31 }).map
      (fun e => (e.has_nexus, e.total_sales, e.taxable_sales, e.transaction_count))
      = Except.ok (false, 110000, 20000, 2)) := by
  obtain ⟨h1, h2, h3, h4, _⟩ := check_econ_ok_fields h
  rw [economic_totals_char] at h1 h2 h3 h4
  exact ⟨⟨h1, h2, h3, h4⟩, by decide⟩

/-- C4 witness: the aggregate characterization applied to the concrete
marketplace-exclusion run. -/
theorem c4_window_aggregates_witness :
    check_economic_nexus c4_txns "A" "CA" c4_rule { year := 2023, month := 12, day := 31 } =
      Except.ok { has_nexus := false, nexus_date := none, total_sales := 110000,
                  taxable_sales := 20000, transaction_count := 2,
                  marketplace_sales := 90000, close_to_threshold := false,
                  threshold_percentage := some 20, days_until_threshold := none } ∧
    (110000 : Rat) =
      ((window_transactions c4_txns "A" "CA"
          (calculate_measurement_period c4_rule.measurement_period
            { year := 2023, month := 12, day := 31 }).1
          (calculate_measurement_period c4_rule.measurement_period
            { year := 2023, month := 12, day := 31 }).2).map
        Transaction.gross_amount).sum := by
  have hok : check_economic_nexus c4_txns "A" "CA" c4_rule
      { year := 2023, month := 12, day := 31 } =
      Except.ok { has_nexus := false, nexus_date := none, total_sales := 110000,
                  taxable_sales := 20000, transaction_count := 2,
                  marketplace_sales := 90000, close_to_threshold := false,
                  threshold_percentage := some 20, days_until_threshold := none } := by
    decide
  have h := (c4_window_aggregates c4_txns "A" "CA" c4_rule
    { year := 2023, month := 12, day := 31 } _ hok).1.1
  exact ⟨hok, h⟩

/-- An EITHER rule with NO sales threshold configured and a
transaction threshold of 2. -/
def c7_bad_rule : NexusRule :=
  { state_code := "CA",
    sales_threshold := none,
    transaction_threshold := some 2,
    threshold_type := some ThresholdType.either_one,
    measurement_period := some MeasurementPeriod.calendar_year }

/-- Three 2023 transactions for the state (well past the 2-transaction
threshold). -/
def c7_txns : List Transaction :=
  [{ analysis_id := "A", transaction_date := { year := 2023, month := 2, day := 1 },
     customer_state := "CA", gross_amount := 10 },
   { analysis_id := "A", transaction_date := { year := 2023, month := 3, day := 1 },
     customer_state := "CA", gross_amount := 10 },
   { analysis_id := "A", transaction_date := { year := 2023, month := 4, day := 1 },
     customer_state := "CA", gross_amount := 10 }]

/-- C7 counterexample: under EITHER with an unconfigured (null) sales
threshold, the claim says the sales condition is skipped and nexus is
granted on the transaction condition alone (3 >= 2 here); the code
instead evaluates `taxable_sales >= rule.sales_threshold`
unconditionally, which against `None` raises `TypeError`, so the run
produces no result at all. -/
theorem c7_null_threshold_type_error :
    check_economic_nexus c7_txns "A" "CA" c7_bad_rule
      { year := 2023, month := 12, day := 31 } = Except.error PyError.typeError ∧
    (window_transactions c7_txns "A" "CA"
      { year := 2023, month := 1, day := 1 }
      { year := 2023, month := 12, day := 31 }).length = 3 ∧
    c7_bad_rule.transaction_threshold = some 2 ∧ 2 ≤ 3 := by
  refine ⟨by decide, by decide, by decide, by decide⟩

/-- The EITHER rule of the worked example: $100,000 or 200 transactions. -/
def c7_either_rule : NexusRule :=
  { state_code := "CA",
    sales_threshold := some 100000,
    transaction_threshold := some 200,
    threshold_type := some ThresholdType.either_one,
    measurement_period := some MeasurementPeriod.calendar_year }

/-- The same thresholds under BOTH. -/
def c7_both_rule : NexusRule :=
  { c7_either_rule with threshold_type := some ThresholdType.both }

/-- $150,000 of taxable sales spread over 50 transactions in the window. -/
def c7_txns50 : List Transaction :=
  List.replicate 50
    { analysis_id := "A", transaction_date := { year := 2023, month := 5, day := 2 },
      customer_state := "CA", gross_amount := 3000 }

set_option maxRecDepth 40000 in
/-- C7 (amended): under EITHER and BOTH the code evaluates BOTH
comparisons unconditionally (a null configured threshold aborts the run
with a TypeError instead of being skipped); when both thresholds ARE
configured, EITHER grants nexus iff the sales condition or the
transaction condition holds and BOTH iff both hold — in particular
$150,000 of sales over 50 transactions against $100,000/200 is nexus
under EITHER but not under BOTH. -/
theorem c7_either_both_with_configured_thresholds (txns : List Transaction)
    (aid state : String) (rule : NexusRule) (pend : PyDate) (s : Rat) (t : Nat)
    (hs : rule.sales_threshold = some s) (ht : rule.transaction_threshold = some t) :
    (rule.threshold_type = some ThresholdType.either_one →
      ∀ er, check_economic_nexus txns aid state rule pend = Except.ok er →
        er.has_nexus = (decide (er.taxable_sales ≥ s) || decide (er.transaction_count ≥ t))) ∧
    (rule.threshold_type = some ThresholdType.both →
      ∀ er, check_economic_nexus txns aid state rule pend = Except.ok er →
        er.has_nexus = (decide (er.taxable_sales ≥ s) && decide (er.transaction_count ≥ t))) ∧
    ((check_economic_nexus c7_txns50 "A" "CA" c7_either_rule
        { year := 2023, month := 12, day := 31 }).map
      (fun er => (er.has_nexus, er.taxable_sales, er.transaction_count))
      = Except.ok (true, 150000, 50)) ∧
    ((check_economic_nexus c7_txns50 "A" "CA" c7_both_rule
        { year := 2023, month := 12, day := 31 }).map
      (fun er => (er.has_nexus, er.taxable_sales, er.transaction_count))
      = Except.ok (false, 150000, 50)) := by
  refine ⟨?_, ?_, by decide, by decide⟩
  · intro hty er h
    have h5 := (check_econ_ok_fields h).2.2.2.2
    simp only [threshold_met, hty, hs, ht, py_ge_opt, py_ge_nat_opt, Bind.bind,
      Except.instMonad, Except.bind, pure, Except.pure, Except.ok.injEq] at h5
    exact h5.symm
  · intro hty er h
    have h5 := (check_econ_ok_fields h).2.2.2.2
    simp only [threshold_met, hty, hs, ht, py_ge_opt, py_ge_nat_opt, Bind.bind,
      Except.instMonad, Except.bind, pure, Except.pure, Except.ok.injEq] at h5
    exact h5.symm

set_option maxRecDepth 40000 in
/-- C7 amended witness: the EITHER characterization applied to the
concrete $150,000 / 50-transaction run. -/
theorem c7_either_both_witness :
    check_economic_nexus c7_txns50 "A" "CA" c7_either_rule
        { year := 2023, month := 12, day := 31 } =
      Except.ok { has_nexus := true,
                  nexus_date := some { year := 2023, month := 5, day := 2 },
                  total_sales := 150000, taxable_sales := 150000,
                  transaction_count := 50, marketplace_sales := 0,
                  close_to_threshold := false, threshold_percentage := some 150,
                  days_until_threshold := none } ∧
    (true : Bool) = (decide ((150000 : Rat) ≥ 100000) || decide (50 ≥ 200)) := by
  have hok : check_economic_nexus c7_txns50 "A" "CA" c7_either_rule
      { year := 2023, month := 12, day := 31 } =
      Except.ok { has_nexus := true,
                  nexus_date := some { year := 2023, month := 5, day := 2 },
                  total_sales := 150000, taxable_sales := 150000,
                  transaction_count := 50, marketplace_sales := 0,
                  close_to_threshold := false, threshold_percentage := some 150,
                  days_until_threshold := none } := by decide
  have h := (c7_either_both_with_configured_thresholds c7_txns50 "A" "CA" c7_either_rule
    { year := 2023, month := 12, day := 31 } 100000 200 rfl rfl).1 rfl _ hok
  exact ⟨hok, h⟩

/-- `pd_isna` failing means the column is present. -/
theorem pd_isna_false_isSome {v : Option Cell} (h : pd_isna v = false) :
    v.isSome = true := by
  cases v with
  | none => simp [pd_isna] at h
  | some c => rfl

/-- A row with a valid date and state whose gross-amount column is
present but NA. -/
def c8_row : Row :=
  { transaction_date := some (Cell.str "2023-01-15"),
    customer_state := some (Cell.str "CA"),
    gross_amount := some Cell.na }

/-- C8 counterexample: a blank (NA) gross amount makes the row INVALID
with "Missing gross amount" — even though `validate_and_convert_amount`
itself would turn the blank into `0.00` — refuting the claim that a
blank/missing gross amount never invalidates a row. -/
theorem c8_blank_gross_amount_is_invalid :
    validate_row c8_row 2 =
      RowResult.invalid { row_number := 2, errors := ["Missing gross amount"],
                          data := c8_row } ∧
    validate_and_convert_amount c8_row.gross_amount = some 0 := by
  exact ⟨by decide, by decide⟩

/-- A row like `c8_row` but with a literal 0 gross amount. -/
def c8_zero_row : Row :=
  { transaction_date := some (Cell.str "2023-01-15"),
    customer_state := some (Cell.str "CA"),
    gross_amount := some (Cell.str "0") }

/-- The validated payload `validate_row` produces for `c8_zero_row`. -/
def c8_zero_validated : ValidatedData :=
  { transaction_date := { year := 2023, month := 1, day := 15 },
    customer_state := "CA", gross_amount := 0, tax_collected := some 0,
    shipping_amount := some 0, order_id := none, customer_id := none,
    marketplace_name := none, is_marketplace_sale := false,
    is_exempt_sale := false, original_row_number := "2" }

/-- C8 (amended): for a row whose date and state validate, a PRESENT
gross amount of 0 is valid and gives a 0.00 transaction amount, and
missing tax/shipping amounts default to 0.00; but a blank or absent
gross amount makes the row invalid with "Missing gross amount" (the
required-field check fires before the to-zero conversion can help), and
a present, non-blank, unparseable gross amount makes it invalid with
"Invalid amount". -/
theorem c8_gross_amount_validation (row : Row) (n : Nat)
    (h1 : pd_isna row.transaction_date = false)
    (h2 : (validate_and_convert_date row.transaction_date).isSome = true)
    (h3 : pd_isna row.customer_state = false)
    (h4 : (validate_and_convert_state row.customer_state).isSome = true) :
    (pd_isna row.gross_amount = true →
      validate_row row n =
        RowResult.invalid { row_number := n, errors := ["Missing gross amount"],
                            data := row }) ∧
    (pd_isna row.gross_amount = false →
      (validate_and_convert_amount row.gross_amount = none →
        validate_row row n =
          RowResult.invalid { row_number := n, errors := ["Invalid amount"],
                              data := row }) ∧
      (∀ q, validate_and_convert_amount row.gross_amount = some q →
        ∃ v, validate_row row n = RowResult.valid v ∧ v.gross_amount = q ∧
          (pd_isna row.tax_collected = true → v.tax_collected = some 0) ∧
          (pd_isna row.shipping_amount = true → v.shipping_amount = some 0))) ∧
    (∃ v, validate_row c8_zero_row 2 = RowResult.valid v ∧ v.gross_amount = 0) := by
  have hd := pd_isna_false_isSome h1
  have hs := pd_isna_false_isSome h3
  obtain ⟨d, hdate⟩ := Option.isSome_iff_exists.1 h2
  obtain ⟨cs, hstate⟩ := Option.isSome_iff_exists.1 h4
  refine ⟨?_, ?_, ⟨c8_zero_validated, by decide, by decide⟩⟩
  · intro hg
    have : validate_and_convert_amount row.gross_amount = some 0 := by
      unfold validate_and_convert_amount
      simp [hg]
    simp only [validate_row, hd, h1, hs, h3, hdate, hstate, hg, this]
    simp
  · intro hg
    have hgs := pd_isna_false_isSome hg
    constructor
    · intro ha
      simp only [validate_row, hd, h1, hs, h3, hdate, hstate, hg, hgs, ha]
      simp
    · intro q ha
      refine ⟨⟨d, cs, q,
          validate_and_convert_amount (some (row.tax_collected.getD (Cell.num 0))),
          validate_and_convert_amount (some (row.shipping_amount.getD (Cell.num 0))),
          optional_str_field row.order_id,
          optional_str_field row.customer_id,
          optional_str_field row.marketplace_name,
          (if row.marketplace_name.isSome then py_truthy (row.marketplace_name.getD Cell.na)
           else false),
          py_truthy (row.is_exempt.getD (Cell.num 0)),
          toString n⟩, ?_, rfl, ?_, ?_⟩
      · simp only [validate_row, hd, h1, hs, h3, hdate, hstate, hg, hgs, ha]
        simp
      · intro ht
        cases hv : row.tax_collected with
        | none =>
          simp [hv, validate_and_convert_amount, pd_isna, parse_decimal, py_strip,
            take_sign, split_first, digits_to_nat]
        | some c =>
          rw [hv] at ht
          cases c with
          | na => simp [hv, validate_and_convert_amount, pd_isna]
          | str s => simp [pd_isna] at ht
          | num q2 => simp [pd_isna] at ht
      · intro hsh
        cases hv : row.shipping_amount with
        | none =>
          simp [hv, validate_and_convert_amount, pd_isna, parse_decimal, py_strip,
            take_sign, split_first, digits_to_nat]
        | some c =>
          rw [hv] at hsh
          cases c with
          | na => simp [hv, validate_and_convert_amount, pd_isna]
          | str s => simp [pd_isna] at hsh
          | num q2 => simp [pd_isna] at hsh

/-- C8 amended witness: the amended characterization applied to the
blank-gross-amount row. -/
theorem c8_gross_amount_validation_witness :
    pd_isna c8_row.transaction_date = false ∧
    pd_isna c8_row.gross_amount = true ∧
    validate_row c8_row 2 =
      RowResult.invalid { row_number := 2, errors := ["Missing gross amount"],
                          data := c8_row } := by
  have h := (c8_gross_amount_validation c8_row 2 (by decide) (by decide)
    (by decide) (by decide)).1 (by decide)
  exact ⟨by decide, by decide, h⟩

/-- The transactions built from the valid rows of a parsed batch, in
row order (each row numbered `index + 2`). -/
def valid_transactions_of (df : List Row) (analysis_id : String) : List Transaction :=
  (df.enum).filterMap (fun p =>
    match validate_row p.2 (p.1 + 2) with
    | RowResult.valid v => some (transaction_of_validated analysis_id v)
    | RowResult.invalid _ => none)

/-- The error dicts of the invalid rows of a parsed batch, in row order. -/
def row_errors_of (df : List Row) : List RowError :=
  (df.enum).filterMap (fun p =>
    match validate_row p.2 (p.1 + 2) with
    | RowResult.valid _ => none
    | RowResult.invalid e => some e)

/-- The row loop of `process_dataframe` splits the batch into the valid
rows' transactions and the invalid rows' error dicts. -/
theorem process_fold_char (analysis_id : String) :
    ∀ (df : List Row) (i : Nat) (txns : List Transaction) (errs : List RowError),
    df.foldl
      (fun (acc : Nat × List Transaction × List RowError) row =>
        let (idx, txns, errs) := acc
        match validate_row row (idx + 2) with
        | RowResult.valid v => (idx + 1, txns ++ [transaction_of_validated analysis_id v], errs)
        | RowResult.invalid e => (idx + 1, txns, errs ++ [e]))
      (i, txns, errs) =
    (i + df.length,
     txns ++ (df.enumFrom i).filterMap (fun p =>
       match validate_row p.2 (p.1 + 2) with
       | RowResult.valid v => some (transaction_of_validated analysis_id v)
       | RowResult.invalid _ => none),
     errs ++ (df.enumFrom i).filterMap (fun p =>
       match validate_row p.2 (p.1 + 2) with
       | RowResult.valid _ => none
       | RowResult.invalid e => some e)) := by
  intro df
  induction df with
  | nil => intro i txns errs; simp
  | cons row rest ih =>
    intro i txns errs
    simp only [List.foldl_cons]
    cases hv : validate_row row (i + 2) with
    | valid v =>
      simp only [hv, ih, List.enumFrom, List.filterMap_cons, hv, List.length_cons,
        List.append_assoc, List.singleton_append, Prod.mk.injEq]
      exact ⟨by omega, trivial⟩
    | invalid e =>
      simp only [hv, ih, List.enumFrom, List.filterMap_cons, hv, List.length_cons,
        List.append_assoc, List.singleton_append, Prod.mk.injEq]
      exact ⟨by omega, trivial⟩

/-- Closed form of `process_dataframe` in terms of the per-row outcomes. -/
theorem process_dataframe_eq (df : List Row) (analysis_id : String) :
    process_dataframe df analysis_id =
      (if (if df.length > 0 then
            ((valid_transactions_of df analysis_id).length : Rat) / (df.length : Rat) * 100
          else 0) < 80 then
        { success := false,
          error := some "Data quality too low",
          valid_rows := (valid_transactions_of df analysis_id).length,
          invalid_rows := (row_errors_of df).length,
          total_rows := df.length,
          quality_percentage :=
            if df.length > 0 then
              ((valid_transactions_of df analysis_id).length : Rat) / (df.length : Rat) * 100
            else 0,
          validation_errors := (row_errors_of df).take 100,
          persisted := [] }
      else
        { success := true,
          valid_rows := (valid_transactions_of df analysis_id).length,
          invalid_rows := (row_errors_of df).length,
          total_rows := df.length,
          quality_percentage :=
            if df.length > 0 then
              ((valid_transactions_of df analysis_id).length : Rat) / (df.length : Rat) * 100
            else 0,
          validation_errors := (row_errors_of df).take 100,
          persisted := valid_transactions_of df analysis_id }) := by
  unfold process_dataframe
  rw [process_fold_char analysis_id df 0 [] []]
  simp only [valid_transactions_of, row_errors_of, List.enum, List.nil_append]

/-- A parseable row (date, CA, $100.00). -/
def c3_valid_row : Row :=
  { transaction_date := some (Cell.str "2023-01-15"),
    customer_state := some (Cell.str "CA"),
    gross_amount := some (Cell.str "100.00") }

/-- A row with an unknown state code (invalid). -/
def c3_invalid_row : Row :=
  { transaction_date := some (Cell.str "2023-01-15"),
    customer_state := some (Cell.str "ZZ"),
    gross_amount := some (Cell.str "100.00") }

/-- 10 rows, 8 valid: exactly 80% quality. -/
def c3_batch8 : List Row :=
  List.replicate 8 c3_valid_row ++ List.replicate 2 c3_invalid_row

/-- 10 rows, 7 valid: 70% quality. -/
def c3_batch7 : List Row :=
  List.replicate 7 c3_valid_row ++ List.replicate 3 c3_invalid_row

/-- C3: for a parsed batch with at least one data row, the batch is
accepted (success, all valid rows persisted, the invalid remainder's
errors reported, capped at 100) exactly when validRows/totalRows is at
least 80%; below that nothing is persisted and the row errors plus the
observed quality percentage are returned — in particular a 10-row batch
with 8 valid rows is accepted and one with 7 valid rows is rejected. -/
theorem c3_eighty_percent_quality_gate (df : List Row) (analysis_id : String)
    (h : 0 < df.length) :
    ((process_dataframe df analysis_id).total_rows = df.length ∧
     (process_dataframe df analysis_id).valid_rows =
       (valid_transactions_of df analysis_id).length ∧
     (process_dataframe df analysis_id).invalid_rows = (row_errors_of df).length ∧
     (process_dataframe df analysis_id).quality_percentage =
       ((valid_transactions_of df analysis_id).length : Rat) / (df.length : Rat) * 100 ∧
     ((process_dataframe df analysis_id).success = true ↔
       (80 : Rat) ≤ ((valid_transactions_of df analysis_id).length : Rat) /
         (df.length : Rat) * 100) ∧
     ((process_dataframe df analysis_id).success = true →
       (process_dataframe df analysis_id).persisted =
         valid_transactions_of df analysis_id) ∧
     ((process_dataframe df analysis_id).success = false →
       (process_dataframe df analysis_id).persisted = []) ∧
     (process_dataframe df analysis_id).validation_errors =
       (row_errors_of df).take 100) ∧
    (process_dataframe c3_batch8 "a").success = true ∧
    (process_dataframe c3_batch8 "a").persisted.length = 8 ∧
    (process_dataframe c3_batch7 "a").success = false ∧
    (process_dataframe c3_batch7 "a").persisted = [] ∧
    c3_batch8.length = 10 ∧ c3_batch7.length = 10 ∧
    (valid_transactions_of c3_batch8 "a").length = 8 ∧
    (valid_transactions_of c3_batch7 "a").length = 7 := by
  refine ⟨?_, by decide, by decide, by decide, by decide, by decide, by decide,
    by decide, by decide⟩
  rw [process_dataframe_eq]
  simp only [gt_iff_lt, h, if_true]
  split
  next hq =>
    refine ⟨rfl, rfl, rfl, rfl, ?_, ?_, fun _ => rfl, rfl⟩
    · constructor
      · intro hcon
        exact absurd hcon (by simp)
      · intro hge
        exact absurd hq (not_lt.2 hge)
    · intro hcon
      exact absurd hcon (by simp)
  next hq =>
    refine ⟨rfl, rfl, rfl, rfl, ?_, fun _ => rfl, ?_, rfl⟩
    · simp only [true_iff]
      exact not_lt.1 hq
    · intro hcon
      exact absurd hcon (by simp)

/-- C3 witness: the gate characterization applied to the 10-row batch
with 8 valid rows. -/
theorem c3_eighty_percent_quality_gate_witness :
    0 < c3_batch8.length ∧
    (process_dataframe c3_batch8 "a").success = true ∧
    ((process_dataframe c3_batch8 "a").success = true ↔
      (80 : Rat) ≤ ((valid_transactions_of c3_batch8 "a").length : Rat) /
        (c3_batch8.length : Rat) * 100) := by
  have h := c3_eighty_percent_quality_gate c3_batch8 "a" (by decide)
  exact ⟨by decide, h.2.1, h.1.2.2.2.2.1⟩

/-- C2: liability estimates are created only for states whose
`NexusResult` determination is physical or economic nexus; a state all
of whose results are NO_NEXUS or CLOSE_TO_THRESHOLD never receives one;
a state with nexus but a missing or no-sales-tax tax config is skipped;
and the run completes (returns, rather than raising) whenever the
analysis row exists. -/
theorem c2_liability_only_for_nexus_states (db : DB) (analysis_id : String)
    (exemption_rate : Option Rat) (include_penalties : Bool)
    (custom_lookback_months : Option Nat) (today : PyDate) :
    (∀ outputs db',
      calculate_liability db analysis_id exemption_rate include_penalties
        custom_lookback_months today = Except.ok (outputs, db') →
      (∀ e ∈ outputs, ∃ r ∈ db.nexus_results, r.analysis_id = analysis_id ∧
        r.state = e.state ∧
        (r.nexus_status = NexusStatus.nexus_physical ∨
         r.nexus_status = NexusStatus.nexus_economic)) ∧
      (∀ s : String,
        (∀ r ∈ db.nexus_results, r.analysis_id = analysis_id → r.state = s →
          (r.nexus_status = NexusStatus.no_nexus ∨
           r.nexus_status = NexusStatus.close_to_threshold)) →
        ∀ e ∈ outputs, e.state ≠ s) ∧
      (∀ s : String,
        (∀ tc ∈ db.state_tax_configs, tc.state_code ≠ s ∨ tc.has_sales_tax = false) →
        ∀ e ∈ outputs, e.state ≠ s)) ∧
    (∀ a ∈ db.analyses, a.analysis_id = analysis_id →
      ∃ outputs db',
        calculate_liability db analysis_id exemption_rate include_penalties
          custom_lookback_months today = Except.ok (outputs, db')) := by
  constructor
  · intro outputs db' h
    unfold calculate_liability at h
    cases hfind : db.analyses.find? (fun a => a.analysis_id == analysis_id) with
    | none =>
      rw [hfind] at h
      simp [Except.bind] at h
    | some a =>
      rw [hfind] at h
      simp only [Bind.bind, Except.instMonad, Except.bind, pure, Except.pure,
        Except.ok.injEq, Prod.mk.injEq] at h
      have houts := h.1
      have hmem_char : ∀ e ∈ outputs, ∃ r ∈ db.nexus_results,
          r.analysis_id = analysis_id ∧ r.state = e.state ∧
          (r.nexus_status = NexusStatus.nexus_physical ∨
           r.nexus_status = NexusStatus.nexus_economic) ∧
          ∃ tc ∈ db.state_tax_configs, tc.state_code = r.state ∧
            tc.has_sales_tax = true := by
        intro e he
        rw [← houts] at he
        obtain ⟨r, hrf, hfr⟩ := List.mem_filterMap.1 he
        obtain ⟨hrmem, hp⟩ := List.mem_filter.1 hrf
        simp only [Bool.and_eq_true, Bool.or_eq_true, beq_iff_eq] at hp
        cases hcfg : db.state_tax_configs.find? (fun tc => tc.state_code == r.state) with
        | none => rw [hcfg] at hfr; simp at hfr
        | some tc =>
          rw [hcfg] at hfr
          by_cases htax : tc.has_sales_tax = true
          · simp only [htax, Bool.not_true, Bool.false_eq_true, if_false,
              Option.some.injEq] at hfr
            have hstate : e.state = r.state := by
              rw [← hfr]
              rfl
            refine ⟨r, hrmem, hp.1, hstate.symm, hp.2, tc, List.mem_of_find?_eq_some hcfg,
              ?_, htax⟩
            have := List.find?_some hcfg
            simpa using this
          · simp only [Bool.not_eq_true] at htax
            simp [htax] at hfr
      refine ⟨?_, ?_, ?_⟩
      · intro e he
        obtain ⟨r, hrmem, ha, hst, hphys, _⟩ := hmem_char e he
        exact ⟨r, hrmem, ha, hst, hphys⟩
      · intro s hall e he hes
        obtain ⟨r, hrmem, ha, hst, hphys, _⟩ := hmem_char e he
        have := hall r hrmem ha (by rw [hst, hes])
        rcases hphys with hp1 | hp1 <;> rcases this with hp2 | hp2 <;>
          rw [hp1] at hp2 <;> cases hp2
      · intro s hcfgall e he hes
        obtain ⟨r, _, _, hst, _, tc, htcmem, htcs, htax⟩ := hmem_char e he
        rcases hcfgall tc htcmem with hne | hfalse
        · exact hne (by rw [htcs, hst, hes])
        · rw [htax] at hfalse
          cases hfalse
  · intro a hamem haid
    have hfind : (db.analyses.find? (fun a => a.analysis_id == analysis_id)).isSome := by
      rw [List.find?_isSome]
      exact ⟨a, hamem, by simp [haid]⟩
    obtain ⟨a2, hfind2⟩ := Option.isSome_iff_exists.1 hfind
    unfold calculate_liability
    rw [hfind2]
    exact ⟨_, _, rfl⟩

/-- The analysis row of `c6_db`. -/
def c6_analysis : Analysis :=
  { analysis_id := "A", period_start := { year := 2026, month := 1, day := 1 },
    period_end := { year := 2026, month := 9, day := 30 } }

/-- C2 witness: on the concrete two-state database the analysis row
exists and the liability run completes with a result. -/
theorem c2_liability_only_for_nexus_states_witness :
    c6_analysis ∈ c6_db.analyses ∧
    ∃ outputs db',
      calculate_liability c6_db "A" none true none { year := 2026, month := 10, day := 12 }
        = Except.ok (outputs, db') := by
  refine ⟨by decide, ?_⟩
  exact (c2_liability_only_for_nexus_states c6_db "A" none true none
    { year := 2026, month := 10, day := 12 }).2 c6_analysis (by decide) rfl
